import Mathlib

/-!
Verification of the Wespoke Web SDK session core (`web-sdk/src`): the call/chat
state machine, the message-deduplication ledger shared by the data-channel push
path, the polling fallback and the SSE chat stream, the connect retry loop, and
the REST-backed end/mute operations.  Each definition is a shallow embedding of
the corresponding TypeScript function; network and transport effects are passed
in explicitly as environment values, and event emission is returned as a trace.
-/

/-- JS truthiness of a nullable string: `null`/`undefined` and the empty string
are falsy, every other string is truthy (used for checks like `if (data.id)`). -/
def jsTruthy : Option String → Bool
  | none => false
  | some s => s != ""

/-- JS `a || b` for a nullable string `a` with string default `b`
(the empty string is falsy and falls through to the default). -/
def jsOrStr (a : Option String) (b : String) : String :=
  match a with
  | none => b
  | some s => if s = "" then b else s

/-- JS `a || b` for a nullable number `a` with default `b` (`0` is falsy). -/
def jsOrNat (a : Option Nat) (b : Nat) : Nat :=
  match a with
  | none => b
  | some 0 => b
  | some n => n

/-- Whether the character list `pat` is an initial segment of `l`. -/
def listStarts : List Char → List Char → Bool
  | _, [] => true
  | [], _ :: _ => false
  | c :: cs, p :: ps => c == p && listStarts cs ps

/-- Whether the character list `pat` occurs contiguously inside `l`. -/
def listOccurs (pat : List Char) : List Char → Bool
  | [] => pat.isEmpty
  | c :: cs => listStarts (c :: cs) pat || listOccurs pat cs

/-- JS `String.prototype.includes`: substring occurrence over the character
lists of the two strings. -/
def strIncludes (s pat : String) : Bool :=
  listOccurs pat.data s.data

/-- JS `String.prototype.toLowerCase` over ASCII, character by character. -/
def strToLower (s : String) : String :=
  String.mk (s.data.map Char.toLower)

/-- Decidable equality on `Except`, so that concrete operation outcomes can be
checked by evaluation. -/
instance exceptDecEq {ε α : Type} [DecidableEq ε] [DecidableEq α] :
    DecidableEq (Except ε α) := fun a b =>
  match a, b with
  | .ok x, .ok y =>
    if h : x = y then isTrue (by rw [h]) else isFalse (fun hh => h (Except.ok.inj hh))
  | .error x, .error y =>
    if h : x = y then isTrue (by rw [h]) else isFalse (fun hh => h (Except.error.inj hh))
  | .ok _, .error _ => isFalse (fun hh => Except.noConfusion hh)
  | .error _, .ok _ => isFalse (fun hh => Except.noConfusion hh)

/-- Structured SDK error: the fields of `WespokeError` and of its subclasses in
`errors.ts` (`name` plays the role of the subclass tag; the untyped `details`
payload is not modelled). `retryAfter`/`resetAt` are the extra fields of
`RateLimitError`. -/
structure WespokeError where
  message : String
  code : String
  statusCode : Option Nat := none
  name : String := "WespokeError"
  retryAfter : Option Nat := none
  resetAt : Option String := none
deriving DecidableEq

/-- Constructor of `AuthenticationError` (`errors.ts`). -/
def AuthenticationError (message : String) : WespokeError :=
  { message := message, code := "AUTHENTICATION_ERROR", statusCode := some 403,
    name := "AuthenticationError" }

/-- Constructor of `InsufficientCreditsError` (`errors.ts`). -/
def InsufficientCreditsError (message : String) : WespokeError :=
  { message := message, code := "INSUFFICIENT_CREDITS", statusCode := some 402,
    name := "InsufficientCreditsError" }

/-- Constructor of `RateLimitError` (`errors.ts`). -/
def RateLimitError (message : String) (retryAfter : Option Nat)
    (resetAt : Option String) : WespokeError :=
  { message := message, code := "RATE_LIMIT_EXCEEDED", statusCode := some 429,
    name := "RateLimitError", retryAfter := retryAfter, resetAt := resetAt }

/-- Constructor of `ConnectionError` (`errors.ts`). -/
def ConnectionError (message : String) : WespokeError :=
  { message := message, code := "CONNECTION_ERROR", name := "ConnectionError" }

/-- Constructor of `ConfigurationError` (`errors.ts`). -/
def ConfigurationError (message : String) : WespokeError :=
  { message := message, code := "CONFIGURATION_ERROR", name := "ConfigurationError" }

/-- Constructor of `AssistantNotFoundError` (`errors.ts`). -/
def AssistantNotFoundError (assistantId : String) : WespokeError :=
  { message := "Assistant not found: " ++ assistantId, code := "ASSISTANT_NOT_FOUND",
    statusCode := some 404, name := "AssistantNotFoundError" }

/-- Constructor of `MediaDevicesError` (`errors.ts`). -/
def MediaDevicesError (message : String) : WespokeError :=
  { message := message, code := "MEDIA_DEVICES_ERROR", name := "MediaDevicesError" }

/-- Constructor of `APIError` (`errors.ts`). -/
def APIError (message : String) (code : String) (statusCode : Option Nat) : WespokeError :=
  { message := message, code := code, statusCode := statusCode, name := "APIError" }

/-- The `error` object of a backend error response body
(`{success:false, error:{message, code, retryAfter?, resetAt?}}`). -/
structure APIErrorBody where
  message : Option String := none
  code : Option String := none
  retryAfter : Option Nat := none
  resetAt : Option String := none
deriving DecidableEq

/-- A backend JSON response body as consumed by `parseAPIError`. -/
structure APIBody where
  success : Bool := false
  error : Option APIErrorBody := none
deriving DecidableEq

/-- The classifier `parseAPIError(response, statusCode)` of `errors.ts`:
maps a backend error body and HTTP status to a structured `WespokeError`. -/
def parseAPIError (response : Option APIBody) (statusCode : Option Nat) : WespokeError :=
  let errorMessage := jsOrStr (response.bind (·.error) |>.bind (·.message)) "Unknown API error"
  let errorCode := jsOrStr (response.bind (·.error) |>.bind (·.code)) "UNKNOWN_ERROR"
  match statusCode with
  | some 401 => AuthenticationError errorMessage
  | some 403 => AuthenticationError errorMessage
  | some 402 => InsufficientCreditsError errorMessage
  | some 404 => AssistantNotFoundError errorMessage
  | some 429 => RateLimitError errorMessage
      (response.bind (·.error) |>.bind (·.retryAfter))
      (response.bind (·.error) |>.bind (·.resetAt))
  | _ => APIError errorMessage errorCode statusCode

/-- The `CallState` enum (`EventEmitter.ts` lines 180-187). -/
inductive CallState where
  | IDLE
  | CONNECTING
  | CONNECTED
  | DISCONNECTING
  | DISCONNECTED
  | ERROR
deriving DecidableEq

/-- A conversation message as emitted on the `message` event (`types`):
`id` is kept nullable because data-channel payloads may lack one. -/
structure ConversationMessage where
  id : Option String := none
  role : String := ""
  content : String := ""
  timestamp : Nat := 0
  isComplete : Bool := false
deriving DecidableEq

/-- The fields read from a decoded data-channel payload of type
`message`/`conversation_item` (`handleDataChannelMessage`, `errors.ts`). -/
structure DataChannelMessage where
  id : Option String := none
  role : String := ""
  content : String := ""
  timestamp : Nat := 0
  isComplete : Bool := false
deriving DecidableEq

/-- A transcription event payload (`transcription_stream` data messages). -/
structure TranscriptionEvent where
  text : String := ""
  transcriptionId : String := ""
  isFinal : Bool := false
  timestamp : Nat := 0
deriving DecidableEq

/-- Events emitted by the SDK on its event bus, as far as the verified claims
need them; each constructor mirrors one `this.emit(...)` call site. -/
inductive SDKEvent where
  | stateChange (s : CallState)
  | connected
  | disconnected (reason : Option String)
  | errorEvent (e : WespokeError)
  | message (m : ConversationMessage)
  | microphoneMuted (muted : Bool)
  | transcription (t : TranscriptionEvent)
  | toolEvent (kind : String) (toolName : String) (toolType : String) (timestamp : Nat)
  | knowledgeUsed (sources : List String) (timestamp : Nat)
  | metrics
  | bargeIn
  | callEnding (reason : String) (msg : String) (timestamp : Nat)
deriving DecidableEq

/-- A decoded data-channel payload after `JSON.parse` and the `data.type`
dispatch of `handleDataChannelMessage`; `parseFailure` stands for a payload
that could not be decoded (the surrounding try/catch swallows it). -/
inductive DataPayload where
  | message (data : DataChannelMessage)
  | conversationItem (data : DataChannelMessage)
  | transcriptionStream (t : TranscriptionEvent)
  | tool (kind : String) (toolName : String) (toolType : String) (timestamp : Nat)
  | metrics
  | bargeIn
  | callEnding (reason : String) (msg : String) (timestamp : Nat)
  | unknown (ty : String)
  | parseFailure
deriving DecidableEq

/-- The conversation message emitted by the `message`/`conversation_item`
branch of `handleDataChannelMessage` (`errors.ts` lines 1042-1050). -/
def mkConvMessage (data : DataChannelMessage) : ConversationMessage :=
  { id := data.id, role := data.role, content := data.content,
    timestamp := data.timestamp, isComplete := data.isComplete }

/-- The `message`/`conversation_item` branch of `handleDataChannelMessage`
(`errors.ts` lines 1030-1058), acting on the `seenMessageIds` set: an incomplete
message whose (truthy) id is already seen is skipped; otherwise the message is
emitted, and its id is added to the seen set only when it is complete. -/
def handleConvMessage (seen : List String) (data : DataChannelMessage) :
    List String × List SDKEvent :=
  if jsTruthy data.id && seen.contains (data.id.getD "") && !data.isComplete then
    (seen, [])
  else
    let seen' := if jsTruthy data.id && data.isComplete then data.id.getD "" :: seen else seen
    (seen', [SDKEvent.message (mkConvMessage data)])

/-- `handleDataChannelMessage` (`errors.ts` lines 1025-1106): dispatch on the
decoded payload's type tag; only conversation messages touch the seen set. -/
def handleDataChannelMessage (seen : List String) (payload : DataPayload) :
    List String × List SDKEvent :=
  match payload with
  | .message data => handleConvMessage seen data
  | .conversationItem data => handleConvMessage seen data
  | .transcriptionStream t => (seen, [SDKEvent.transcription t])
  | .tool kind toolName toolType ts => (seen, [SDKEvent.toolEvent kind toolName toolType ts])
  | .metrics => (seen, [SDKEvent.metrics])
  | .bargeIn => (seen, [SDKEvent.bargeIn])
  | .callEnding r m ts => (seen, [SDKEvent.callEnding r m ts])
  | .unknown _ => (seen, [])
  | .parseFailure => (seen, [])

/-- The per-message body of the polling callback in `startMessagePolling`
(`errors.ts` lines 1119-1125): emit a fetched message only if its id is truthy
and unseen, marking the id seen first. -/
def pollStep (acc : List String × List SDKEvent) (m : ConversationMessage) :
    List String × List SDKEvent :=
  if jsTruthy m.id && !acc.1.contains (m.id.getD "") then
    (m.id.getD "" :: acc.1, acc.2 ++ [SDKEvent.message m])
  else
    acc

/-- One polling tick over a fetched batch of messages (the `forEach` of
`startMessagePolling`; the tick itself only runs while a call id is set and the
state is `CONNECTED`, and fetch failures are swallowed). -/
def pollEmit (seen : List String) (messages : List ConversationMessage) :
    List String × List SDKEvent :=
  messages.foldl pollStep (seen, [])

/-- One delivery arriving on either of the two concurrent call-mode paths:
a data-channel push payload, or one polling tick's fetched batch. -/
inductive Delivery where
  | push (payload : DataPayload)
  | poll (messages : List ConversationMessage)
deriving DecidableEq

/-- Process one delivery against the seen-id ledger. -/
def deliverStep (seen : List String) : Delivery → List String × List SDKEvent
  | .push payload => handleDataChannelMessage seen payload
  | .poll messages => pollEmit seen messages

/-- Process a sequence of deliveries, concatenating the emitted events. -/
def deliverAll (seen : List String) : List Delivery → List String × List SDKEvent
  | [] => (seen, [])
  | d :: ds =>
    let out := deliverStep seen d
    let rest := deliverAll out.1 ds
    (rest.1, out.2 ++ rest.2)

/-- The conversation messages carried by an event trace. -/
def msgEvents (evs : List SDKEvent) : List ConversationMessage :=
  evs.filterMap fun e =>
    match e with
    | .message m => some m
    | _ => none

/-- The resolved SDK configuration (`WespokeConfig` with defaults applied in the
constructor); `retryDelay` is kept rational so the 1.5-exponential backoff is
exact. -/
structure WespokeConfig where
  apiKey : String := "pk_test_key"
  apiUrl : String := "https://api.wespoke.com.tr"
  debug : Bool := false
  maxRetryAttempts : Nat := 3
  retryDelay : ℚ := 2000

/-- The mutable fields of the `Wespoke` class that the verified claims observe.
`localAudioTrackMuted = none` models `localAudioTrack === null`; `some b` models
a published local track with `isMuted = b`. -/
structure SDKState where
  callState : CallState := .IDLE
  currentCallId : Option String := none
  currentChatId : Option String := none
  abortControllerActive : Bool := false
  chatAbortControllerActive : Bool := false
  pollingActive : Bool := false
  seenMessageIds : List String := []
  shouldEndChatAfterStart : Bool := false
  roomExists : Bool := false
  localAudioTrackMuted : Option Bool := none
  assistantPresent : Bool := false
  attachedTracks : List String := []
deriving DecidableEq

/-- `setState` (`errors.ts` lines 1244-1249): update `callState` and emit a
`stateChange` event only when the new state differs from the current one. -/
def setState (st : SDKState) (newState : CallState) : SDKState × List SDKEvent :=
  if st.callState ≠ newState then
    ({ st with callState := newState }, [SDKEvent.stateChange newState])
  else
    (st, [])

/-- Outcome of an awaited `fetch` (plus `response.json()`): either a parsed
response, or a rejection with some error (an `AbortError` is a thrown error
whose `name` field is "AbortError"). -/
inductive FetchOutcome (α : Type) where
  | resp (r : α)
  | thrown (e : WespokeError)
deriving DecidableEq

/-- A plain control-API HTTP response (status line plus parsed JSON body). -/
structure HTTPResponse where
  ok : Bool := true
  status : Nat := 200
  body : APIBody := { success := true }
deriving DecidableEq

/-- The `data` payload of a successful token response. -/
structure TokenData where
  callId : String := ""
  token : String := ""
  url : String := ""
  roomName : String := ""
deriving DecidableEq

/-- An HTTP response to the token request (`POST /api/v1/embed/token`). -/
structure TokenHTTPResponse where
  ok : Bool := true
  status : Nat := 200
  success : Bool := true
  error : Option APIErrorBody := none
  data : TokenData := {}
deriving DecidableEq

/-- `fetchToken` (`errors.ts` lines 708-730): classify any non-ok or
`success:false` response through `parseAPIError`, otherwise return the data. -/
def fetchToken (outcome : FetchOutcome TokenHTTPResponse) : Except WespokeError TokenData :=
  match outcome with
  | .thrown e => .error e
  | .resp r =>
    if !r.ok || !r.success then
      .error (parseAPIError (some { success := r.success, error := r.error }) (some r.status))
    else
      .ok r.data

/-- Result of one transport connect attempt (`room.connect`): success, or a
rejection carrying the underlying error's message string. -/
inductive AttemptResult where
  | success
  | failure (message : String)
deriving DecidableEq

/-- Environment of `connectToRoom`: the outcome each attempt would have, and
the abort-signal state at the check before each attempt (1-based). -/
structure ConnectEnv where
  attemptResult : Nat → AttemptResult
  abortedBefore : Nat → Bool

/-- The retry loop of `connectToRoom` (`errors.ts` lines 1159-1183), iterating
over the list of attempt numbers of the `for` loop: before each attempt the
abort signal is checked; a failure whose lowercased message contains
"unauthorized" or "forbidden" is rethrown immediately as an authentication
`ConnectionError`; the failure of attempt `maxRetryAttempts` becomes the
exhaustion `ConnectionError`; any other failure waits
`retryDelay * 1.5 ^ (attempt - 1)` and retries.  Returns the result together
with the list of backoff delays actually waited (an exhausted attempt list
means the loop fell through, resolving successfully). -/
def connectAttempts (env : ConnectEnv) (maxRetryAttempts : Nat) (retryDelay : ℚ) :
    List Nat → Except WespokeError Unit × List ℚ
  | [] => (.ok (), [])
  | attempt :: rest =>
    if env.abortedBefore attempt then
      (.error (ConnectionError "Connection aborted"), [])
    else
      match env.attemptResult attempt with
      | .success => (.ok (), [])
      | .failure msg =>
        let errorMessage := strToLower msg
        if strIncludes errorMessage "unauthorized" || strIncludes errorMessage "forbidden" then
          (.error (ConnectionError "Authentication failed"), [])
        else if attempt = maxRetryAttempts then
          (.error (ConnectionError ("Failed to connect after " ++ toString attempt ++ " attempts")), [])
        else
          let d := retryDelay * (3 / 2 : ℚ) ^ (attempt - 1)
          let out := connectAttempts env maxRetryAttempts retryDelay rest
          (out.1, d :: out.2)

/-- `connectToRoom` (`errors.ts` lines 1152-1184): fails if the room was never
created, otherwise runs the retry loop over attempts `1, …, maxRetryAttempts`. -/
def connectToRoom (roomExists : Bool) (env : ConnectEnv) (maxRetryAttempts : Nat)
    (retryDelay : ℚ) : Except WespokeError Unit × List ℚ :=
  if !roomExists then
    (.error (ConnectionError "Room not initialized"), [])
  else
    connectAttempts env maxRetryAttempts retryDelay (List.range' 1 maxRetryAttempts)

/-- `publishLocalAudio` (`errors.ts` lines 1186-1205): any failure of track
acquisition or publication surfaces as the fixed `MediaDevicesError`. -/
def publishLocalAudio (roomExists : Bool) (outcome : Except WespokeError Unit) :
    Except WespokeError Unit :=
  if !roomExists then
    .error (ConnectionError "Room not initialized")
  else
    match outcome with
    | .ok _ => .ok ()
    | .error _ => .error (MediaDevicesError "Failed to access microphone")

/-- Environment of one `startCall` invocation: the token-fetch outcome, the
per-attempt connect outcomes, the microphone acquisition outcome, and whether
the assistant participant is already in the room at join time. -/
structure StartCallEnv where
  tokenFetch : FetchOutcome TokenHTTPResponse
  connectEnv : ConnectEnv
  publishOutcome : Except WespokeError Unit
  assistantAlreadyInRoom : Bool := false

/-- The shared failure path of `startCall`'s catch block (`errors.ts` lines
253-261): reset to `IDLE` (not `ERROR`), clear the call id, emit the error,
and rethrow it. -/
def startCallFail (st : SDKState) (evs : List SDKEvent) (e : WespokeError) :
    SDKState × List SDKEvent × Except WespokeError Unit :=
  let s := setState st .IDLE
  ({ s.1 with currentCallId := none }, evs ++ s.2 ++ [SDKEvent.errorEvent e], .error e)

/-- `startCall` (`errors.ts` lines 215-262): guard against a call in progress,
enter `CONNECTING`, clear the dedup ledger, then run token fetch, room
creation, audio-context warm-up (best-effort, swallowed), transport connect
with retry, local audio publish, participant reconciliation and polling start,
ending in `CONNECTED`; any failure takes the shared catch path. -/
def startCall (cfg : WespokeConfig) (st : SDKState) (env : StartCallEnv) :
    SDKState × List SDKEvent × Except WespokeError Unit :=
  if st.callState ≠ .IDLE ∧ st.callState ≠ .DISCONNECTED then
    (st, [], .error { message := "A call is already in progress", code := "CALL_IN_PROGRESS" })
  else
    let s1 := setState st .CONNECTING
    let st1 := { s1.1 with seenMessageIds := [] }
    match fetchToken env.tokenFetch with
    | .error e => startCallFail st1 s1.2 e
    | .ok tokenData =>
      let st2 := { st1 with currentCallId := some tokenData.callId, roomExists := true }
      let st3 := { st2 with abortControllerActive := true }
      let conn := connectToRoom st3.roomExists env.connectEnv cfg.maxRetryAttempts cfg.retryDelay
      match conn.1 with
      | .error e => startCallFail st3 s1.2 e
      | .ok _ =>
        match publishLocalAudio st3.roomExists env.publishOutcome with
        | .error e => startCallFail st3 s1.2 e
        | .ok _ =>
          let st4 := { st3 with localAudioTrackMuted := some false }
          let st5 :=
            if env.assistantAlreadyInRoom && !st4.assistantPresent then
              { st4 with assistantPresent := true }
            else st4
          let st6 := { st5 with pollingActive := true }
          let s7 := setState st6 .CONNECTED
          (s7.1, s1.2 ++ s7.2, .ok ())

/-- Environment of one `endCall` invocation: the outcome of the termination
request (`POST /calls/{id}/end` together with `response.json()`; a `thrown`
outcome models a network-level rejection, which the catch block rethrows). -/
structure EndCallEnv where
  endFetch : FetchOutcome HTTPResponse
deriving DecidableEq

/-- `endCall` (`errors.ts` lines 267-331): no-op when idle or without a call
id; otherwise enter `DISCONNECTING`, stop polling, call the termination API
(a non-ok or unsuccessful response is only logged and cleanup proceeds), abort
any pending connect, detach all tracks, unpublish and stop the local track,
drop the assistant, disconnect the room, clear the call id and ledger, and end
`DISCONNECTED`.  A rejection thrown by the fetch reaches the catch block, which
emits the error and rethrows without running any of the cleanup. -/
def endCall (st : SDKState) (env : EndCallEnv) :
    SDKState × List SDKEvent × Except WespokeError Unit :=
  if st.callState = .IDLE ∨ ¬ jsTruthy st.currentCallId then
    (st, [], .ok ())
  else
    let s1 := setState st .DISCONNECTING
    let st1 := { s1.1 with pollingActive := false }
    match env.endFetch with
    | .thrown e =>
      (st1, s1.2 ++ [SDKEvent.errorEvent e], .error e)
    | .resp _r =>
      let st2 := { st1 with
        abortControllerActive := false,
        attachedTracks := [],
        localAudioTrackMuted := none,
        assistantPresent := false,
        roomExists := false,
        currentCallId := none,
        seenMessageIds := [] }
      let s3 := setState st2 .DISCONNECTED
      (s3.1, s1.2 ++ s3.2, .ok ())

/-- Environment of one `toggleMute` invocation: the outcome of the mute
persistence request (`POST /calls/{id}/mute`). -/
structure MuteEnv where
  muteFetch : FetchOutcome HTTPResponse
deriving DecidableEq

/-- `toggleMute` of the REST SDK (`errors.ts` lines 336-381): guard on an
active call id and a local track; compute the inverse of the current mute
state; persist it via the API; only on success apply it to the local track,
emit `microphoneMuted`, and return the new muted state. -/
def toggleMute (st : SDKState) (env : MuteEnv) :
    SDKState × List SDKEvent × Except WespokeError Bool :=
  if ¬ jsTruthy st.currentCallId then
    (st, [], .error { message := "No active call", code := "NO_ACTIVE_CALL" })
  else
    match st.localAudioTrackMuted with
    | none => (st, [], .error { message := "No active audio track", code := "NO_AUDIO_TRACK" })
    | some currentMuted =>
      let newMuted := !currentMuted
      match env.muteFetch with
      | .thrown e => (st, [], .error e)
      | .resp r =>
        if !r.ok || !r.body.success then
          (st, [], .error (parseAPIError (some r.body) (some r.status)))
        else
          ({ st with localAudioTrackMuted := some newMuted },
            [SDKEvent.microphoneMuted newMuted], .ok newMuted)

namespace Part007

/-- `toggleMute` of the older SDK copy (`src/unnamed/part_007` lines 187-232):
identical to the REST version except for the returned value, which is the new
enabled state `!newMuted` rather than the new muted state. -/
def toggleMute (st : SDKState) (env : MuteEnv) :
    SDKState × List SDKEvent × Except WespokeError Bool :=
  if ¬ jsTruthy st.currentCallId then
    (st, [], .error { message := "No active call", code := "NO_ACTIVE_CALL" })
  else
    match st.localAudioTrackMuted with
    | none => (st, [], .error { message := "No active audio track", code := "NO_AUDIO_TRACK" })
    | some currentMuted =>
      let newMuted := !currentMuted
      match env.muteFetch with
      | .thrown e => (st, [], .error e)
      | .resp r =>
        if !r.ok || !r.body.success then
          (st, [], .error (parseAPIError (some r.body) (some r.status)))
        else
          ({ st with localAudioTrackMuted := some newMuted },
            [SDKEvent.microphoneMuted newMuted], .ok (!newMuted))

end Part007

/-- An HTTP response to the chat-creation request (`POST /api/v1/embed/chat`);
`chatId` is the `data.data.chatId` field of a successful body. -/
structure ChatHTTPResponse where
  ok : Bool := true
  status : Nat := 200
  success : Bool := true
  error : Option APIErrorBody := none
  chatId : String := ""
deriving DecidableEq

/-- Environment of one `endChatSession` invocation: the outcome of the
termination request (`POST /chat/{chatId}/end`). -/
structure EndChatEnv where
  endFetch : FetchOutcome HTTPResponse := .resp {}
deriving DecidableEq

/-- `endChatSession` (`errors.ts` lines 626-682): while still `CONNECTING`
with a live abort controller and no chat id, abort the pending creation, set
the should-end flag and return to `IDLE`; without a chat id, just reset the
flag; otherwise enter `DISCONNECTING`, POST the termination (failure responses
only logged), then clear the chat id, ledger and flag and end `DISCONNECTED`,
emitting `disconnected` — a thrown termination request still clears all local
state and ends `DISCONNECTED`, additionally emitting the error and rethrowing. -/
def endChatSession (st : SDKState) (env : EndChatEnv) :
    SDKState × List SDKEvent × Except WespokeError Unit :=
  if st.callState = .CONNECTING ∧ st.chatAbortControllerActive ∧ ¬ jsTruthy st.currentChatId then
    let st1 := { st with shouldEndChatAfterStart := true }
    let s2 := setState st1 .IDLE
    (s2.1, s2.2, .ok ())
  else if ¬ jsTruthy st.currentChatId then
    ({ st with shouldEndChatAfterStart := false }, [], .ok ())
  else
    let s1 := setState st .DISCONNECTING
    match env.endFetch with
    | .thrown e =>
      let st2 := { s1.1 with
        currentChatId := none,
        shouldEndChatAfterStart := false,
        seenMessageIds := [] }
      let s3 := setState st2 .DISCONNECTED
      (s3.1, s1.2 ++ s3.2 ++ [SDKEvent.disconnected (some "Chat session ended with error"),
        SDKEvent.errorEvent e], .error e)
    | .resp _r =>
      let st2 := { s1.1 with
        currentChatId := none,
        seenMessageIds := [],
        shouldEndChatAfterStart := false }
      let s3 := setState st2 .DISCONNECTED
      (s3.1, s1.2 ++ s3.2 ++ [SDKEvent.disconnected (some "Chat session ended")], .ok ())

/-- Environment of one `startChatSession` invocation: the creation-request
outcome, whether a concurrent `endChatSession` set the should-end flag while
the request was in flight, and the environment of the nested `endChatSession`
run on that race path. -/
structure StartChatEnv where
  chatFetch : FetchOutcome ChatHTTPResponse
  endRequestedWhileConnecting : Bool := false
  endEnv : EndChatEnv := {}

/-- The non-abort catch path of `startChatSession` (`errors.ts` lines 560-564):
back to `IDLE`, emit `disconnected` with a failure reason, emit the error, and
rethrow; the `finally` clears the chat abort controller. -/
def startChatFail (st : SDKState) (evs : List SDKEvent) (e : WespokeError) :
    SDKState × List SDKEvent × Except WespokeError Unit :=
  let s := setState st .IDLE
  ({ s.1 with chatAbortControllerActive := false },
    evs ++ s.2 ++ [SDKEvent.disconnected (some "Chat session failed to start"),
      SDKEvent.errorEvent e], .error e)

/-- `startChatSession` (`errors.ts` lines 497-568): fail fast on an existing
chat (`CHAT_IN_PROGRESS`) or an active voice call (`CALL_IN_PROGRESS`); enter
`CONNECTING`, clear the ledger, arm a fresh abort controller, POST the
creation; an `AbortError` is a clean disconnect back to `IDLE` (no error), any
other failure is classified and takes the failure path; on success capture the
chat id, and if a concurrent `endChatSession` requested teardown while
connecting, immediately end the just-created session (an error thrown by that
nested end falls into this function's catch), else enter `CONNECTED` and emit
`connected`.  The concurrent flag set is modelled by
`env.endRequestedWhileConnecting`. -/
def startChatSession (st : SDKState) (env : StartChatEnv) :
    SDKState × List SDKEvent × Except WespokeError Unit :=
  if jsTruthy st.currentChatId then
    (st, [], .error { message := "A chat session is already in progress", code := "CHAT_IN_PROGRESS" })
  else if (st.callState ≠ .IDLE ∧ st.callState ≠ .DISCONNECTED) ∨ jsTruthy st.currentCallId then
    (st, [], .error { message := "Cannot start chat while a voice call is active", code := "CALL_IN_PROGRESS" })
  else
    let s1 := setState st .CONNECTING
    let st1 := { s1.1 with
      seenMessageIds := [],
      chatAbortControllerActive := true,
      shouldEndChatAfterStart := env.endRequestedWhileConnecting }
    match env.chatFetch with
    | .thrown e =>
      if e.name = "AbortError" then
        let s2 := setState st1 .IDLE
        ({ s2.1 with chatAbortControllerActive := false },
          s1.2 ++ s2.2 ++ [SDKEvent.disconnected (some "Chat session start aborted")], .ok ())
      else
        startChatFail st1 s1.2 e
    | .resp r =>
      if !r.ok || !r.success then
        startChatFail st1 s1.2 (parseAPIError (some { success := r.success, error := r.error }) (some r.status))
      else
        let st2 := { st1 with currentChatId := some r.chatId }
        if st2.shouldEndChatAfterStart then
          let out := endChatSession st2 env.endEnv
          match out.2.2 with
          | .ok _ =>
            ({ out.1 with chatAbortControllerActive := false }, s1.2 ++ out.2.1, .ok ())
          | .error e =>
            if e.name = "AbortError" then
              let s2 := setState out.1 .IDLE
              ({ s2.1 with chatAbortControllerActive := false },
                s1.2 ++ out.2.1 ++ s2.2 ++ [SDKEvent.disconnected (some "Chat session start aborted")], .ok ())
            else
              startChatFail out.1 (s1.2 ++ out.2.1) e
        else
          let s3 := setState st2 .CONNECTED
          ({ s3.1 with chatAbortControllerActive := false },
            s1.2 ++ s3.2 ++ [SDKEvent.connected], .ok ())

/-- The object carried in the `message` field of a `message:complete` SSE
record ( `eventData.message`, an object with optional id/role/content). -/
structure SSEMessageObj where
  id : Option String := none
  role : Option String := none
  content : Option String := none
deriving DecidableEq

/-- The parsed `data:` JSON of one SSE record, covering the fields read by
`handleSSEStream`; `errMessage` is the string-typed `message` field of `error`
records (distinct from the object-typed `message` of `message:complete`). -/
structure SSEData where
  messageId : Option String := none
  accumulatedContent : Option String := none
  message : Option SSEMessageObj := none
  timestamp : Option Nat := none
  errMessage : Option String := none
  code : Option String := none
  toolName : Option String := none
  toolType : Option String := none
  sources : List String := []
deriving DecidableEq

/-- The loop-local state of `handleSSEStream`: the shared seen-id ledger plus
the per-stream accumulation buffer and current message id. -/
structure SSEState where
  seen : List String
  currentMessageId : String
  accumulatedContent : String
deriving DecidableEq

/-- The complete message constructed by the `message:complete` branch
(`errors.ts` lines 801-810) from the record data and the loop state
(`now` stands for the `Date.now()` fallbacks). -/
def mkCompleteMessage (now : Nat) (st : SSEState) (d : SSEData) : ConversationMessage :=
  let messageData := d.message.getD {}
  { id := some (jsOrStr messageData.id st.currentMessageId),
    role := jsOrStr messageData.role "assistant",
    content := jsOrStr messageData.content st.accumulatedContent.trim,
    timestamp := jsOrNat d.timestamp now,
    isComplete := true }

/-- One dispatch of the `switch (eventType)` of `handleSSEStream` (`errors.ts`
lines 787-870) on a record that passed the `!eventType || !eventData` guard.
The third component is `none` to continue the loop, `some (ok ())` for `done`
(return), and `some (error e)` for `error` records (throw). -/
def handleSSERecord (now : Nat) (st : SSEState) (eventType : String) (d : SSEData) :
    SSEState × List SDKEvent × Option (Except WespokeError Unit) :=
  match eventType with
  | "message:start" =>
    ({ st with
      currentMessageId := jsOrStr d.messageId ("assistant-" ++ toString now),
      accumulatedContent := "" }, [], none)
  | "message:chunk" =>
    ({ st with accumulatedContent := jsOrStr d.accumulatedContent st.accumulatedContent },
      [], none)
  | "message:complete" =>
    let completeMessage := mkCompleteMessage now st d
    let mid := completeMessage.id.getD ""
    if st.seen.contains mid then
      ({ st with accumulatedContent := "" }, [], none)
    else
      ({ st with seen := mid :: st.seen, accumulatedContent := "" },
        [SDKEvent.message completeMessage], none)
  | "tool:started" =>
    (st, [SDKEvent.toolEvent "start" (d.toolName.getD "") (d.toolType.getD "")
      (jsOrNat d.timestamp now)], none)
  | "tool:completed" =>
    (st, [SDKEvent.toolEvent "complete" (d.toolName.getD "") (d.toolType.getD "")
      (jsOrNat d.timestamp now)], none)
  | "tool:failed" =>
    (st, [SDKEvent.toolEvent "failed" (d.toolName.getD "") (d.toolType.getD "")
      (jsOrNat d.timestamp now)], none)
  | "knowledge:used" =>
    (st, [SDKEvent.knowledgeUsed d.sources (jsOrNat d.timestamp now)], none)
  | "error" =>
    (st, [], some (.error
      { message := jsOrStr d.errMessage "Chat error",
        code := jsOrStr d.code "CHAT_ERROR" }))
  | "done" =>
    (st, [], some (.ok ()))
  | _ => (st, [], none)

/-- The record-processing loop of `handleSSEStream` over the already-framed
records (each an `event:` type with an optionally parsed `data:` payload);
records with an empty type or no data are skipped (`errors.ts` line 785). -/
def handleSSERecords (now : Nat) (st : SSEState) :
    List (String × Option SSEData) → SSEState × List SDKEvent × Except WespokeError Unit
  | [] => (st, [], .ok ())
  | (eventType, dOpt) :: rest =>
    match dOpt with
    | none => handleSSERecords now st rest
    | some d =>
      if eventType = "" then
        handleSSERecords now st rest
      else
        let step := handleSSERecord now st eventType d
        match step.2.2 with
        | some r => (step.1, step.2.1, r)
        | none =>
          let out := handleSSERecords now step.1 rest
          (out.1, step.2.1 ++ out.2.1, out.2.2)

/-- `handleSSEStream` (`errors.ts` lines 735-879) at the record level: start
with an empty accumulation buffer and the time-derived fallback message id,
then run the loop over the framed records of the response body. -/
def handleSSEStream (now : Nat) (seen : List String)
    (records : List (String × Option SSEData)) :
    SSEState × List SDKEvent × Except WespokeError Unit :=
  handleSSERecords now
    { seen := seen, currentMessageId := "assistant-" ++ toString now,
      accumulatedContent := "" } records

/-- Environment of one `sendChatMessage` invocation: the current time (used for
the synthesized user-message id and SSE fallbacks), whether the POST response
is ok (when not, its parsed error body and status), and the framed records of
the streaming body when it is. -/
structure SendChatEnv where
  now : Nat := 0
  ok : Bool := true
  status : Nat := 200
  errorBody : APIBody := {}
  records : List (String × Option SSEData) := []

/-- `sendChatMessage` (`errors.ts` lines 573-621): guard on an active chat id
and `CONNECTED` state; synthesize and emit the local user message through the
ledger before any network call; a non-ok response is classified, emitted as an
error and rethrown; an ok response's body is consumed by `handleSSEStream`,
whose thrown errors are also emitted and rethrown by the catch. -/
def sendChatMessage (st : SDKState) (env : SendChatEnv) (content : String) :
    SDKState × List SDKEvent × Except WespokeError Unit :=
  if ¬ jsTruthy st.currentChatId then
    (st, [], .error { message := "No active chat session", code := "NO_ACTIVE_CHAT" })
  else if st.callState ≠ .CONNECTED then
    (st, [], .error { message := "Not connected to a chat session", code := "NOT_CONNECTED" })
  else
    let userId := "user-" ++ toString env.now
    let userMessage : ConversationMessage :=
      { id := some userId, role := "user", content := content, timestamp := env.now,
        isComplete := true }
    let afterUser : SDKState × List SDKEvent :=
      if !st.seenMessageIds.contains userId then
        ({ st with seenMessageIds := userId :: st.seenMessageIds },
          [SDKEvent.message userMessage])
      else
        (st, [])
    if !env.ok then
      let e := parseAPIError (some env.errorBody) (some env.status)
      (afterUser.1, afterUser.2 ++ [SDKEvent.errorEvent e], .error e)
    else
      let out := handleSSEStream env.now afterUser.1.seenMessageIds env.records
      match out.2.2 with
      | .ok _ =>
        ({ afterUser.1 with seenMessageIds := out.1.seen },
          afterUser.2 ++ out.2.1, .ok ())
      | .error e =>
        ({ afterUser.1 with seenMessageIds := out.1.seen },
          afterUser.2 ++ out.2.1 ++ [SDKEvent.errorEvent e], .error e)

/-- Apply `setState` over a list of requested target states, concatenating the
emitted `stateChange` events. -/
def setStates (st : SDKState) : List CallState → SDKState × List SDKEvent
  | [] => (st, [])
  | n :: ns =>
    let s1 := setState st n
    let rest := setStates s1.1 ns
    (rest.1, s1.2 ++ rest.2)

/-- The state values carried by the `stateChange` events of a trace. -/
def stateChangeValues (evs : List SDKEvent) : List CallState :=
  evs.filterMap fun e =>
    match e with
    | .stateChange s => some s
    | _ => none

/-! ## Lemmas about the deduplication ledger -/

theorem msgEvents_append (a b : List SDKEvent) :
    msgEvents (a ++ b) = msgEvents a ++ msgEvents b := by
  simp [msgEvents]

theorem msgEvents_cons_message (m : ConversationMessage) (evs : List SDKEvent) :
    msgEvents (SDKEvent.message m :: evs) = m :: msgEvents evs := by
  simp [msgEvents]

theorem deliverAll_append (seen : List String) (xs ys : List Delivery) :
    deliverAll seen (xs ++ ys) =
      ((deliverAll (deliverAll seen xs).1 ys).1,
        (deliverAll seen xs).2 ++ (deliverAll (deliverAll seen xs).1 ys).2) := by
  induction xs generalizing seen with
  | nil => simp [deliverAll]
  | cons d ds ih => simp [deliverAll, ih]

theorem handleConvMessage_skip (seen : List String) (d : DataChannelMessage) (i : String)
    (hid : d.id = some i) (hi : i ≠ "") (hmem : i ∈ seen)
    (hinc : d.isComplete = false) :
    handleConvMessage seen d = (seen, []) := by
  simp [handleConvMessage, hid, hinc, jsTruthy, hi, hmem]

theorem handleConvMessage_complete (seen : List String) (d : DataChannelMessage)
    (hc : d.isComplete = true) :
    handleConvMessage seen d =
      ((if jsTruthy d.id then d.id.getD "" :: seen else seen),
        [SDKEvent.message (mkConvMessage d)]) := by
  simp [handleConvMessage, hc]

theorem handleConvMessage_newIncomplete (seen : List String) (d : DataChannelMessage)
    (i : String) (hid : d.id = some i) (hmem : i ∉ seen) (hinc : d.isComplete = false) :
    handleConvMessage seen d = (seen, [SDKEvent.message (mkConvMessage d)]) := by
  simp [handleConvMessage, hid, hinc, jsTruthy, hmem]

theorem deliverAll_cons_push_complete (seen : List String) (d : DataChannelMessage)
    (hc : d.isComplete = true) (ds : List Delivery) :
    deliverAll seen (Delivery.push (DataPayload.message d) :: ds) =
      ((deliverAll (if jsTruthy d.id then d.id.getD "" :: seen else seen) ds).1,
        SDKEvent.message (mkConvMessage d) ::
          (deliverAll (if jsTruthy d.id then d.id.getD "" :: seen else seen) ds).2) := by
  simp [deliverAll, deliverStep, handleDataChannelMessage,
    handleConvMessage_complete seen d hc]

theorem deliverAll_cons_push_skip (seen : List String) (d : DataChannelMessage) (i : String)
    (hid : d.id = some i) (hi : i ≠ "") (hmem : i ∈ seen) (hinc : d.isComplete = false)
    (ds : List Delivery) :
    deliverAll seen (Delivery.push (DataPayload.message d) :: ds) = deliverAll seen ds := by
  simp [deliverAll, deliverStep, handleDataChannelMessage,
    handleConvMessage_skip seen d i hid hi hmem hinc]

theorem deliverAll_cons_push_newIncomplete (seen : List String) (d : DataChannelMessage)
    (i : String) (hid : d.id = some i) (hmem : i ∉ seen) (hinc : d.isComplete = false)
    (ds : List Delivery) :
    deliverAll seen (Delivery.push (DataPayload.message d) :: ds) =
      ((deliverAll seen ds).1, SDKEvent.message (mkConvMessage d) :: (deliverAll seen ds).2) := by
  simp [deliverAll, deliverStep, handleDataChannelMessage,
    handleConvMessage_newIncomplete seen d i hid hmem hinc]

theorem pushes_after_seen_complete (i : String) (hi : i ≠ "") :
    ∀ (ds : List DataChannelMessage) (seen : List String), i ∈ seen →
      (∀ d ∈ ds, d.id = some i) →
      ∀ m ∈ msgEvents (deliverAll seen
          (ds.map (fun d => Delivery.push (DataPayload.message d)))).2,
        m.isComplete = true := by
  intro ds
  induction ds with
  | nil => intro seen _ _ m hm; simp [deliverAll, msgEvents] at hm
  | cons d ds ih =>
    intro seen hseen hall m hm
    have hid : d.id = some i := hall d (by simp)
    have hallrest : ∀ x ∈ ds, x.id = some i := fun x hx => hall x (by simp [hx])
    by_cases hc : d.isComplete = true
    · rw [List.map_cons, deliverAll_cons_push_complete seen d hc,
        msgEvents_cons_message] at hm
      have hseen' : i ∈ (if jsTruthy d.id then d.id.getD "" :: seen else seen) := by
        split
        · simp [hid, hseen]
        · exact hseen
      rcases List.mem_cons.mp hm with h1 | h2
      · rw [h1]; simpa [mkConvMessage] using hc
      · exact ih _ hseen' hallrest m h2
    · have hinc : d.isComplete = false := by simpa using hc
      rw [List.map_cons, deliverAll_cons_push_skip seen d i hid hi hseen hinc] at hm
      exact ih _ hseen hallrest m hm

theorem pushes_pairwise_complete (i : String) (hi : i ≠ "") :
    ∀ (ds : List DataChannelMessage) (seen : List String),
      (∀ d ∈ ds, d.id = some i) →
      List.Pairwise (fun a b => a.isComplete = true → b.isComplete = true)
        (msgEvents (deliverAll seen
          (ds.map (fun d => Delivery.push (DataPayload.message d)))).2) := by
  intro ds
  induction ds with
  | nil => intro seen _; simp [deliverAll, msgEvents]
  | cons d ds ih =>
    intro seen hall
    have hid : d.id = some i := hall d (by simp)
    have hallrest : ∀ x ∈ ds, x.id = some i := fun x hx => hall x (by simp [hx])
    by_cases hc : d.isComplete = true
    · rw [List.map_cons, deliverAll_cons_push_complete seen d hc, msgEvents_cons_message]
      have hseen' : i ∈ (if jsTruthy d.id then d.id.getD "" :: seen else seen) := by
        split
        · simp [hid]
        · simp [hid, jsTruthy, hi] at *
      refine List.pairwise_cons.mpr ⟨?_, ih _ hallrest⟩
      intro b hb _
      exact pushes_after_seen_complete i hi ds _ hseen' hallrest b hb
    · have hinc : d.isComplete = false := by simpa using hc
      by_cases hmem : i ∈ seen
      · rw [List.map_cons, deliverAll_cons_push_skip seen d i hid hi hmem hinc]
        exact ih _ hallrest
      · rw [List.map_cons, deliverAll_cons_push_newIncomplete seen d i hid hmem hinc,
          msgEvents_cons_message]
        refine List.pairwise_cons.mpr ⟨?_, ih _ hallrest⟩
        intro b hb habs
        rw [show (mkConvMessage d).isComplete = d.isComplete from rfl, hinc] at habs
        exact absurd habs (by simp)

theorem pollFold_no_new_id (i : String) :
    ∀ (ms : List ConversationMessage) (acc : List String × List SDKEvent), i ∈ acc.1 →
      ∀ m ∈ msgEvents (ms.foldl pollStep acc).2, m.id = some i → m ∈ msgEvents acc.2 := by
  intro ms
  induction ms with
  | nil => intro acc _ m hm _; simpa using hm
  | cons m0 rest ih =>
    intro acc hacc m hm hmid
    rw [List.foldl_cons] at hm
    by_cases hcond : (jsTruthy m0.id && !acc.1.contains (m0.id.getD "")) = true
    · have hstep : pollStep acc m0 = (m0.id.getD "" :: acc.1, acc.2 ++ [SDKEvent.message m0]) := by
        simp only [pollStep, hcond, if_true]
      rw [hstep] at hm
      have hacc' : i ∈ m0.id.getD "" :: acc.1 := List.mem_cons_of_mem _ hacc
      have hmem := ih _ hacc' m hm hmid
      rw [msgEvents_append] at hmem
      rcases List.mem_append.mp hmem with h1 | h2
      · exact h1
      · exfalso
        simp [msgEvents] at h2
        rw [h2] at hmid
        obtain ⟨hty, hnc⟩ : jsTruthy m0.id = true ∧
            (!acc.1.contains (m0.id.getD "")) = true := by simpa using hcond
        rw [hmid] at hnc
        simp at hnc
        exact hnc hacc
    · have hstep : pollStep acc m0 = acc := by
        simp only [pollStep]
        rw [if_neg]
        simpa using hcond
      rw [hstep] at hm
      exact ih _ hacc m hm hmid

/-- Push delivery of the complete message `pushFinal` and its polled copy
`pollFinal`, both bearing the id "m1" and the final content. -/
def pushFinal : DataChannelMessage :=
  { id := some "m1", role := "assistant", content := "final", timestamp := 0, isComplete := true }

/-- The same final message as fetched by the polling fallback. -/
def pollFinal : ConversationMessage :=
  { id := some "m1", role := "assistant", content := "final", timestamp := 0, isComplete := true }

/-- C1 counterexample: when the polling fallback delivers the message first and
the push channel then delivers the complete version, subscribers receive two
`message` emissions bearing the id "m1", not exactly one — the complete push
is never suppressed by the ledger. -/
theorem dualPath_exactlyOnce_cex :
    (deliverAll [] [Delivery.poll [pollFinal], Delivery.push (DataPayload.message pushFinal)]).2 =
      [SDKEvent.message pollFinal, SDKEvent.message (mkConvMessage pushFinal)] ∧
    ((msgEvents (deliverAll []
        [Delivery.poll [pollFinal], Delivery.push (DataPayload.message pushFinal)]).2).filter
      (fun m => m.id == some "m1")).length ≠ 1 := by
  decide

/-- C1 (amended): for a message id delivered both by the push channel (as a
complete message) and by the polling fallback: if the push delivery arrives
first, subscribers receive exactly one emission bearing that id (the push one,
with the final content) and the poll never re-emits it; if the poll delivers
first, the complete push delivery is re-emitted, so subscribers receive two
emissions, the polled copy followed by the push copy. -/
theorem dualPath_dedup_amended
    (i : String) (hi : i ≠ "") (seen : List String) (hseen : i ∉ seen)
    (d : DataChannelMessage) (hid : d.id = some i) (hc : d.isComplete = true)
    (ms : List ConversationMessage) :
    ((msgEvents (deliverAll seen
        [Delivery.push (DataPayload.message d), Delivery.poll ms]).2).filter
      (fun m => m.id == some i)) = [mkConvMessage d] ∧
    ∀ (p : ConversationMessage), p.id = some i →
      (deliverAll seen [Delivery.poll [p], Delivery.push (DataPayload.message d)]).2 =
        [SDKEvent.message p, SDKEvent.message (mkConvMessage d)] := by
  constructor
  · rw [deliverAll_cons_push_complete seen d hc]
    have hseen' : (if jsTruthy d.id then d.id.getD "" :: seen else seen) = i :: seen := by
      simp [hid, jsTruthy, hi]
    rw [hseen']
    have hpoll : (deliverAll (i :: seen) [Delivery.poll ms]).2 = (pollEmit (i :: seen) ms).2 := by
      simp [deliverAll, deliverStep]
    rw [msgEvents_cons_message, hpoll]
    have hkeep : ((mkConvMessage d).id == some i) = true := by
      simp [mkConvMessage, hid]
    have hnil : (msgEvents (pollEmit (i :: seen) ms).2).filter (fun m => m.id == some i) = [] := by
      rw [List.filter_eq_nil_iff]
      intro a ha habs
      have hmid : a.id = some i := by simpa using habs
      have hres := pollFold_no_new_id i ms (i :: seen, []) (by simp) a ha hmid
      simp [msgEvents] at hres
    rw [List.filter_cons]
    simp only [hkeep, if_true]
    rw [hnil]
  · intro p hp
    have hstep1 : pollStep (seen, []) p = (i :: seen, [SDKEvent.message p]) := by
      simp [pollStep, hp, jsTruthy, hi, hseen]
    have hpe : pollEmit seen [p] = (i :: seen, [SDKEvent.message p]) := by
      simp [pollEmit, hstep1]
    have h2 : handleConvMessage (i :: seen) d =
        (i :: i :: seen, [SDKEvent.message (mkConvMessage d)]) := by
      rw [handleConvMessage_complete _ d hc]
      simp [hid, jsTruthy, hi]
    simp [deliverAll, deliverStep, handleDataChannelMessage, hpe, h2]

/-- C2: on the push path, an incomplete message whose id is already in the seen
set is suppressed while a complete message is always emitted and its id added
to the seen set; consequently, for any interleaving of same-id versions in
which the complete version arrives last, the final emission carries the
complete version's content, and no incomplete emission follows a complete one. -/
theorem push_dedup_complete_last
    (i : String) (hi : i ≠ "") (seen : List String)
    (ds : List DataChannelMessage) (dlast : DataChannelMessage)
    (hall : ∀ d ∈ ds ++ [dlast], d.id = some i)
    (hlast : dlast.isComplete = true) :
    (∀ (s : List String) (d : DataChannelMessage), d.id = some i → i ∈ s →
        d.isComplete = false → handleConvMessage s d = (s, [])) ∧
    (∀ (s : List String) (d : DataChannelMessage), d.id = some i → d.isComplete = true →
        (handleConvMessage s d).2 = [SDKEvent.message (mkConvMessage d)] ∧
        i ∈ (handleConvMessage s d).1) ∧
    (msgEvents (deliverAll seen ((ds ++ [dlast]).map
        (fun d => Delivery.push (DataPayload.message d)))).2).getLast? =
      some (mkConvMessage dlast) ∧
    List.Pairwise (fun a b => a.isComplete = true → b.isComplete = true)
      (msgEvents (deliverAll seen ((ds ++ [dlast]).map
        (fun d => Delivery.push (DataPayload.message d)))).2) := by
  refine ⟨?_, ?_, ?_, ?_⟩
  · intro s d hd hmem hinc
    exact handleConvMessage_skip s d i hd hi hmem hinc
  · intro s d hd hcomp
    rw [handleConvMessage_complete s d hcomp]
    refine ⟨rfl, ?_⟩
    simp [hd, jsTruthy, hi]
  · rw [List.map_append, deliverAll_append, msgEvents_append]
    have hlast2 : (deliverAll (deliverAll seen (ds.map
        (fun d => Delivery.push (DataPayload.message d)))).1
          ([dlast].map (fun d => Delivery.push (DataPayload.message d)))).2 =
        [SDKEvent.message (mkConvMessage dlast)] := by
      rw [List.map_singleton, deliverAll_cons_push_complete _ dlast hlast]
      simp [deliverAll]
    rw [hlast2]
    simp [msgEvents]
  · exact pushes_pairwise_complete i hi (ds ++ [dlast]) seen hall

/-- Witness for `dualPath_dedup_amended` at the counterexample's message. -/
theorem dualPath_dedup_amended_witness :
    ((msgEvents (deliverAll []
        [Delivery.push (DataPayload.message pushFinal), Delivery.poll [pollFinal]]).2).filter
      (fun m => m.id == some "m1")) = [mkConvMessage pushFinal] ∧
    (deliverAll [] [Delivery.poll [pollFinal], Delivery.push (DataPayload.message pushFinal)]).2 =
      [SDKEvent.message pollFinal, SDKEvent.message (mkConvMessage pushFinal)] := by
  have h := dualPath_dedup_amended "m1" (by decide) [] (by simp) pushFinal (by decide)
    (by decide) [pollFinal]
  exact ⟨h.1, h.2 pollFinal (by decide)⟩

/-- An incomplete (still-streaming) version of the message with id "m1". -/
def pushPartial : DataChannelMessage :=
  { id := some "m1", content := "par", isComplete := false }

/-- Witness for `push_dedup_complete_last`: an incomplete then a complete
version of id "m1", complete last. -/
theorem push_dedup_complete_last_witness :
    (msgEvents (deliverAll []
        (([pushPartial, pushFinal] : List DataChannelMessage).map
          (fun d => Delivery.push (DataPayload.message d)))).2).getLast? =
      some (mkConvMessage pushFinal) := by
  have h := push_dedup_complete_last "m1" (by decide) [] [pushPartial] pushFinal
    (by decide) (by decide)
  exact h.2.2.1

/-! ## Lemmas about the connect retry loop -/

theorem connectAttempts_cons_abort (env : ConnectEnv) (maxRetryAttempts : Nat)
    (retryDelay : ℚ) (k : Nat) (rest : List Nat) (hab : env.abortedBefore k = true) :
    connectAttempts env maxRetryAttempts retryDelay (k :: rest) =
      (.error (ConnectionError "Connection aborted"), []) := by
  simp [connectAttempts, hab]

theorem connectAttempts_cons_auth (env : ConnectEnv) (maxRetryAttempts : Nat)
    (retryDelay : ℚ) (k : Nat) (rest : List Nat) (msg : String)
    (hab : env.abortedBefore k = false) (hm : env.attemptResult k = .failure msg)
    (hauth : (strIncludes (strToLower msg) "unauthorized" ||
      strIncludes (strToLower msg) "forbidden") = true) :
    connectAttempts env maxRetryAttempts retryDelay (k :: rest) =
      (.error (ConnectionError "Authentication failed"), []) := by
  simp [connectAttempts, hab, hm, hauth]

theorem connectAttempts_cons_backoff (env : ConnectEnv) (maxRetryAttempts : Nat)
    (retryDelay : ℚ) (k : Nat) (rest : List Nat) (msg : String)
    (hab : env.abortedBefore k = false) (hm : env.attemptResult k = .failure msg)
    (hauth : (strIncludes (strToLower msg) "unauthorized" ||
      strIncludes (strToLower msg) "forbidden") = false)
    (hkne : k ≠ maxRetryAttempts) :
    connectAttempts env maxRetryAttempts retryDelay (k :: rest) =
      ((connectAttempts env maxRetryAttempts retryDelay rest).1,
        retryDelay * (3 / 2 : ℚ) ^ (k - 1) ::
          (connectAttempts env maxRetryAttempts retryDelay rest).2) := by
  simp [connectAttempts, hab, hm, hauth, hkne]

theorem connectAttempts_cons_exhausted (env : ConnectEnv) (maxRetryAttempts : Nat)
    (retryDelay : ℚ) (rest : List Nat) (msg : String)
    (hab : env.abortedBefore maxRetryAttempts = false)
    (hm : env.attemptResult maxRetryAttempts = .failure msg)
    (hauth : (strIncludes (strToLower msg) "unauthorized" ||
      strIncludes (strToLower msg) "forbidden") = false) :
    connectAttempts env maxRetryAttempts retryDelay (maxRetryAttempts :: rest) =
      (.error (ConnectionError
        ("Failed to connect after " ++ toString maxRetryAttempts ++ " attempts")), []) := by
  simp [connectAttempts, hab, hm, hauth]

theorem connectAttempts_exhaust (env : ConnectEnv) (maxRetryAttempts : Nat) (retryDelay : ℚ) :
    ∀ (n k : Nat), 1 ≤ k → k + n = maxRetryAttempts →
      (∀ j, k ≤ j → j ≤ maxRetryAttempts → env.abortedBefore j = false ∧
        ∃ m, env.attemptResult j = .failure m ∧
          (strIncludes (strToLower m) "unauthorized" ||
            strIncludes (strToLower m) "forbidden") = false) →
      connectAttempts env maxRetryAttempts retryDelay (List.range' k (n + 1)) =
        (.error (ConnectionError
            ("Failed to connect after " ++ toString maxRetryAttempts ++ " attempts")),
          (List.range' k n).map (fun j => retryDelay * (3 / 2 : ℚ) ^ (j - 1))) := by
  intro n
  induction n with
  | zero =>
    intro k hk1 hkmax hfail
    obtain ⟨hab, m, hm, hauth⟩ := hfail k le_rfl (by omega)
    have hkeq : k = maxRetryAttempts := by omega
    subst hkeq
    rw [show List.range' k 1 = [k] from rfl,
      connectAttempts_cons_exhausted env k retryDelay [] m hab hm hauth]
    simp
  | succ n ih =>
    intro k hk1 hkmax hfail
    obtain ⟨hab, m, hm, hauth⟩ := hfail k le_rfl (by omega)
    have hkne : k ≠ maxRetryAttempts := by omega
    rw [List.range'_succ,
      connectAttempts_cons_backoff env maxRetryAttempts retryDelay k _ m hab hm hauth hkne,
      ih (k + 1) (by omega) (by omega) (fun j hj1 hj2 => hfail j (by omega) hj2),
      List.range'_succ, List.map_cons]

/-- C5: the connect retry loop checks the abort signal before every attempt and
an aborted connect fails immediately with the abort `ConnectionError`; an
unauthorized/forbidden failure message fails immediately with the
authentication `ConnectionError`, with no further attempt and no wait; any
other failure at attempt `k ≠ maxRetryAttempts` waits
`retryDelay * 1.5 ^ (k - 1)` before the next attempt; if every attempt fails
that way, `connectToRoom` fails with the exhaustion `ConnectionError` after
waiting the `maxRetryAttempts - 1` backoff delays; and the abort error is
distinct from the exhaustion error. -/
theorem connectToRoom_retry_policy
    (env : ConnectEnv) (maxRetryAttempts : Nat) (retryDelay : ℚ) :
    (∀ (k : Nat) (rest : List Nat), env.abortedBefore k = true →
      connectAttempts env maxRetryAttempts retryDelay (k :: rest) =
        (.error (ConnectionError "Connection aborted"), [])) ∧
    (∀ (k : Nat) (rest : List Nat) (msg : String), env.abortedBefore k = false →
      env.attemptResult k = .failure msg →
      (strIncludes (strToLower msg) "unauthorized" ||
        strIncludes (strToLower msg) "forbidden") = true →
      connectAttempts env maxRetryAttempts retryDelay (k :: rest) =
        (.error (ConnectionError "Authentication failed"), [])) ∧
    (∀ (k : Nat) (rest : List Nat) (msg : String), env.abortedBefore k = false →
      env.attemptResult k = .failure msg →
      (strIncludes (strToLower msg) "unauthorized" ||
        strIncludes (strToLower msg) "forbidden") = false →
      k ≠ maxRetryAttempts →
      connectAttempts env maxRetryAttempts retryDelay (k :: rest) =
        ((connectAttempts env maxRetryAttempts retryDelay rest).1,
          retryDelay * (3 / 2 : ℚ) ^ (k - 1) ::
            (connectAttempts env maxRetryAttempts retryDelay rest).2)) ∧
    ((∀ j, 1 ≤ j → j ≤ maxRetryAttempts → env.abortedBefore j = false ∧
        ∃ m, env.attemptResult j = .failure m ∧
          (strIncludes (strToLower m) "unauthorized" ||
            strIncludes (strToLower m) "forbidden") = false) →
      1 ≤ maxRetryAttempts →
      connectToRoom true env maxRetryAttempts retryDelay =
        (.error (ConnectionError
            ("Failed to connect after " ++ toString maxRetryAttempts ++ " attempts")),
          (List.range' 1 (maxRetryAttempts - 1)).map
            (fun k => retryDelay * (3 / 2 : ℚ) ^ (k - 1)))) ∧
    ConnectionError "Connection aborted" ≠
      ConnectionError ("Failed to connect after " ++ toString maxRetryAttempts ++ " attempts") := by
  refine ⟨?_, ?_, ?_, ?_, ?_⟩
  · intro k rest hab
    exact connectAttempts_cons_abort env maxRetryAttempts retryDelay k rest hab
  · intro k rest msg hab hm hauth
    exact connectAttempts_cons_auth env maxRetryAttempts retryDelay k rest msg hab hm hauth
  · intro k rest msg hab hm hauth hkne
    exact connectAttempts_cons_backoff env maxRetryAttempts retryDelay k rest msg hab hm hauth hkne
  · intro hfail hmax
    have hsplit : maxRetryAttempts - 1 + 1 = maxRetryAttempts := by omega
    have h := connectAttempts_exhaust env maxRetryAttempts retryDelay (maxRetryAttempts - 1) 1
      le_rfl (by omega) (fun j hj1 hj2 => hfail j hj1 hj2)
    rw [hsplit] at h
    simpa [connectToRoom] using h
  · intro h
    have hm : "Connection aborted" =
        "Failed to connect after " ++ toString maxRetryAttempts ++ " attempts" := by
      have hmsg := congrArg WespokeError.message h
      simpa [ConnectionError] using hmsg
    have hlen := congrArg String.length hm
    rw [String.length_append, String.length_append] at hlen
    have h1 : ("Connection aborted" : String).length = 18 := rfl
    have h2 : ("Failed to connect after " : String).length = 24 := rfl
    have h3 : (" attempts" : String).length = 9 := rfl
    rw [h1, h2, h3] at hlen
    omega

/-- Connect environment in which every attempt is rejected with a transient
network failure and the abort signal never fires. -/
def transientEnv : ConnectEnv :=
  { attemptResult := fun _ => .failure "conn reset", abortedBefore := fun _ => false }

/-- Connect environment whose first attempt is rejected as unauthorized. -/
def authFailEnv : ConnectEnv :=
  { attemptResult := fun _ => .failure "401 Unauthorized returned", abortedBefore := fun _ => false }

/-- Connect environment whose abort signal is already set before attempt 1. -/
def abortedEnv : ConnectEnv :=
  { attemptResult := fun _ => .success, abortedBefore := fun _ => true }

/-- Witness for `connectToRoom_retry_policy` at `maxRetryAttempts = 3`,
`retryDelay = 2000`: an aborted connect, an unauthorized failure, and full
exhaustion each produce the stated outcome. -/
theorem connectToRoom_retry_policy_witness :
    connectAttempts abortedEnv 3 2000 [1, 2, 3] =
      (.error (ConnectionError "Connection aborted"), []) ∧
    connectAttempts authFailEnv 3 2000 [1, 2, 3] =
      (.error (ConnectionError "Authentication failed"), []) ∧
    connectToRoom true transientEnv 3 2000 =
      (.error (ConnectionError "Failed to connect after 3 attempts"),
        [2000 * (3 / 2 : ℚ) ^ ((1 : Nat) - 1), 2000 * (3 / 2 : ℚ) ^ ((2 : Nat) - 1)]) := by
  refine ⟨?_, ?_, ?_⟩
  · exact (connectToRoom_retry_policy abortedEnv 3 2000).1 1 [2, 3] rfl
  · exact (connectToRoom_retry_policy authFailEnv 3 2000).2.1 1 [2, 3]
      "401 Unauthorized returned" rfl rfl (by decide)
  · have h := (connectToRoom_retry_policy transientEnv 3 2000).2.2.2.1
      (fun j _ _ => ⟨rfl, "conn reset", rfl, by decide⟩) (by decide)
    have hs : ("Failed to connect after " ++ toString (3 : Nat) ++ " attempts") =
        "Failed to connect after 3 attempts" := rfl
    rw [hs] at h
    exact h

/-! ## Lemmas about startCall -/

theorem setState_state (st : SDKState) (n : CallState) : (setState st n).1.callState = n := by
  by_cases h : st.callState = n <;> simp [setState, h]

theorem startCallFail_spec (st : SDKState) (evs : List SDKEvent) (e : WespokeError) :
    (startCallFail st evs e).1.callState = .IDLE ∧
    (startCallFail st evs e).1.currentCallId = none ∧
    (startCallFail st evs e).2.2 = .error e ∧
    SDKEvent.errorEvent e ∈ (startCallFail st evs e).2.1 := by
  unfold startCallFail
  by_cases h : st.callState = .IDLE <;> simp [setState, h]

/-- The 402 token response of the insufficient-credits scenario:
`{success:false, error:{code:"X", message:"no credits"}}` with HTTP 402. -/
def resp402 : TokenHTTPResponse :=
  { ok := false, status := 402, success := false,
    error := some { message := some "no credits", code := some "X" } }

/-- C3: whenever `startCall` (entered from `IDLE` or `DISCONNECTED`) fails, the
error is rethrown to the caller, emitted on the error event, the state is reset
to `IDLE` (not a permanent error state), and the call id is cleared; each
bootstrap step's failure is the one rethrown (the connect loop's error for the
transport step, the `MediaDevicesError` for the publish step); in particular a
402 `success:false` token response rejects with the `InsufficientCreditsError`
(code `INSUFFICIENT_CREDITS`, status 402), with state `IDLE` and no call id. -/
theorem startCall_failure_resets (cfg : WespokeConfig) (st : SDKState) (env : StartCallEnv)
    (hst : st.callState = .IDLE ∨ st.callState = .DISCONNECTED) :
    (∀ e, (startCall cfg st env).2.2 = .error e →
        (startCall cfg st env).1.callState = .IDLE ∧
        (startCall cfg st env).1.currentCallId = none ∧
        SDKEvent.errorEvent e ∈ (startCall cfg st env).2.1) ∧
    (∀ e, fetchToken env.tokenFetch = .error e → (startCall cfg st env).2.2 = .error e) ∧
    (∀ e, (∃ td, fetchToken env.tokenFetch = .ok td) →
        (connectToRoom true env.connectEnv cfg.maxRetryAttempts cfg.retryDelay).1 = .error e →
        (startCall cfg st env).2.2 = .error e) ∧
    ((∃ td, fetchToken env.tokenFetch = .ok td) →
        (connectToRoom true env.connectEnv cfg.maxRetryAttempts cfg.retryDelay).1 = .ok () →
        (∃ e0, env.publishOutcome = .error e0) →
        (startCall cfg st env).2.2 = .error (MediaDevicesError "Failed to access microphone")) ∧
    (env.tokenFetch = .resp resp402 →
        (startCall cfg st env).2.2 = .error (InsufficientCreditsError "no credits") ∧
        (InsufficientCreditsError "no credits").code = "INSUFFICIENT_CREDITS" ∧
        (InsufficientCreditsError "no credits").statusCode = some 402 ∧
        (startCall cfg st env).1.callState = .IDLE ∧
        (startCall cfg st env).1.currentCallId = none) := by
  have hguard : ¬(st.callState ≠ .IDLE ∧ st.callState ≠ .DISCONNECTED) := by
    rcases hst with h | h <;> simp [h]
  refine ⟨?_, ?_, ?_, ?_, ?_⟩
  · intro e he
    rcases hfetch : fetchToken env.tokenFetch with e1 | td
    · have heq : startCall cfg st env =
          startCallFail { (setState st .CONNECTING).1 with seenMessageIds := [] }
            (setState st .CONNECTING).2 e1 := by
        simp only [startCall, if_neg hguard, hfetch]
      obtain ⟨h1, h2, h3, h4⟩ := startCallFail_spec
        { (setState st .CONNECTING).1 with seenMessageIds := [] } (setState st .CONNECTING).2 e1
      rw [heq] at he ⊢
      rw [h3] at he
      obtain rfl : e1 = e := Except.error.inj he
      exact ⟨h1, h2, h4⟩
    · rcases hconn : (connectToRoom true env.connectEnv cfg.maxRetryAttempts cfg.retryDelay).1
        with e1 | u
      · have heq : (startCall cfg st env) =
            startCallFail { (setState st .CONNECTING).1 with
                seenMessageIds := [], currentCallId := some td.callId, roomExists := true,
                abortControllerActive := true }
              (setState st .CONNECTING).2 e1 := by
          simp only [startCall, if_neg hguard, hfetch]
          simp [hconn]
        obtain ⟨h1, h2, h3, h4⟩ := startCallFail_spec _ (setState st .CONNECTING).2 e1
        rw [heq] at he ⊢
        rw [h3] at he
        obtain rfl : e1 = e := Except.error.inj he
        exact ⟨h1, h2, h4⟩
      · rcases hpub : env.publishOutcome with e1 | u2
        · have heq : (startCall cfg st env) =
              startCallFail { (setState st .CONNECTING).1 with
                  seenMessageIds := [], currentCallId := some td.callId, roomExists := true,
                  abortControllerActive := true }
                (setState st .CONNECTING).2 (MediaDevicesError "Failed to access microphone") := by
            simp only [startCall, if_neg hguard, hfetch]
            simp [hconn, publishLocalAudio, hpub]
          obtain ⟨h1, h2, h3, h4⟩ := startCallFail_spec _ (setState st .CONNECTING).2
            (MediaDevicesError "Failed to access microphone")
          rw [heq] at he ⊢
          rw [h3] at he
          obtain rfl : MediaDevicesError "Failed to access microphone" = e :=
            Except.error.inj he
          exact ⟨h1, h2, h4⟩
        · -- every step succeeded: the result is ok, contradicting he
          exfalso
          have hok : (startCall cfg st env).2.2 = .ok () := by
            simp only [startCall, if_neg hguard, hfetch]
            simp [hconn, publishLocalAudio, hpub]
          rw [hok] at he
          exact Except.noConfusion he
  · intro e hfetch
    have heq : startCall cfg st env =
        startCallFail { (setState st .CONNECTING).1 with seenMessageIds := [] }
          (setState st .CONNECTING).2 e := by
      simp only [startCall, if_neg hguard, hfetch]
    rw [heq]
    exact (startCallFail_spec _ _ e).2.2.1
  · intro e htd hconn
    obtain ⟨td, hfetch⟩ := htd
    have heq : (startCall cfg st env).2.2 = .error e := by
      simp only [startCall, if_neg hguard, hfetch]
      simp [hconn, startCallFail]
    exact heq
  · intro htd hconn hpub
    obtain ⟨td, hfetch⟩ := htd
    obtain ⟨e0, hp⟩ := hpub
    simp only [startCall, if_neg hguard, hfetch]
    simp [hconn, publishLocalAudio, hp, startCallFail]
  · intro hresp
    have hfetch : fetchToken env.tokenFetch = .error (InsufficientCreditsError "no credits") := by
      rw [hresp]
      decide
    have heq : startCall cfg st env =
        startCallFail { (setState st .CONNECTING).1 with seenMessageIds := [] }
          (setState st .CONNECTING).2 (InsufficientCreditsError "no credits") := by
      simp only [startCall, if_neg hguard, hfetch]
    obtain ⟨h1, h2, h3, _⟩ := startCallFail_spec
      { (setState st .CONNECTING).1 with seenMessageIds := [] } (setState st .CONNECTING).2
      (InsufficientCreditsError "no credits")
    rw [heq]
    exact ⟨h3, rfl, rfl, h1, h2⟩

/-- The environment of the 402 insufficient-credits scenario. -/
def env402 : StartCallEnv :=
  { tokenFetch := .resp resp402, connectEnv := transientEnv, publishOutcome := .ok () }

/-- Witness for `startCall_failure_resets`: the 402 insufficient-credits
scenario from the fresh initial state. -/
theorem startCall_failure_resets_witness :
    (startCall {} {} env402).2.2 = .error (InsufficientCreditsError "no credits") ∧
    (startCall {} {} env402).1.callState = .IDLE ∧
    (startCall {} {} env402).1.currentCallId = none := by
  have h := (startCall_failure_resets {} {} env402 (Or.inl rfl)).2.2.2.2 rfl
  exact ⟨h.1, h.2.2.2.1, h.2.2.2.2⟩

/-! ## Theorems about toggleMute -/

/-- C9: with an active call id and a local track, a failing mute-persistence
request (non-ok/unsuccessful response, or a thrown rejection) leaves the whole
state unchanged, emits nothing, and propagates the (classified) error; only on
API success is the local track flipped, the `microphoneMuted` event emitted,
and the new muted state returned. -/
theorem toggleMute_api_failure_atomic (st : SDKState) (env : MuteEnv)
    (hcall : jsTruthy st.currentCallId = true) (b : Bool)
    (htrack : st.localAudioTrackMuted = some b) :
    (∀ r, env.muteFetch = .resp r → (!r.ok || !r.body.success) = true →
        toggleMute st env = (st, [], .error (parseAPIError (some r.body) (some r.status)))) ∧
    (∀ e, env.muteFetch = .thrown e → toggleMute st env = (st, [], .error e)) ∧
    (∀ r, env.muteFetch = .resp r → r.ok = true → r.body.success = true →
        toggleMute st env = ({ st with localAudioTrackMuted := some (!b) },
          [SDKEvent.microphoneMuted (!b)], .ok (!b))) := by
  refine ⟨?_, ?_, ?_⟩
  · intro r hr hfail
    simp [toggleMute, hcall, htrack, hr, hfail]
  · intro e he
    simp [toggleMute, hcall, htrack, he]
  · intro r hr hok hs
    simp [toggleMute, hcall, htrack, hr, hok, hs]

/-- A connected voice-call state with an unmuted local track. -/
def unmutedCallSt : SDKState :=
  { callState := .CONNECTED, currentCallId := some "call_1", localAudioTrackMuted := some false }

/-- A successful mute-persistence response environment. -/
def okMuteEnv : MuteEnv := { muteFetch := .resp {} }

/-- A failing mute-persistence response environment (HTTP 500, success:false). -/
def failMuteEnv : MuteEnv :=
  { muteFetch := .resp { ok := false, status := 500, body := { success := false } } }

/-- Witness for `toggleMute_api_failure_atomic`: a failing persistence request
leaves the state untouched and emits nothing; a successful one flips the track. -/
theorem toggleMute_api_failure_atomic_witness :
    toggleMute unmutedCallSt failMuteEnv =
      (unmutedCallSt, [], .error (parseAPIError
        (some { success := false }) (some 500))) ∧
    toggleMute unmutedCallSt okMuteEnv =
      ({ unmutedCallSt with localAudioTrackMuted := some true },
        [SDKEvent.microphoneMuted true], .ok true) := by
  have h := toggleMute_api_failure_atomic unmutedCallSt failMuteEnv (by decide) false rfl
  have h2 := toggleMute_api_failure_atomic unmutedCallSt okMuteEnv (by decide) false rfl
  exact ⟨h.1 _ rfl (by decide), h2.2.2 _ rfl rfl rfl⟩

/-- C8 counterexample: the `toggleMute` of `src/unnamed/part_007` (cited by the
claim), called successfully from the unmuted state, mutes the track and emits
`microphoneMuted true`, yet returns `false` (the enabled state) — not `true` as
the claim states. -/
theorem toggleMute_part007_cex :
    (Part007.toggleMute unmutedCallSt okMuteEnv).2.2 = .ok false ∧
    (Part007.toggleMute unmutedCallSt okMuteEnv).2.1 = [SDKEvent.microphoneMuted true] ∧
    ¬ ((Part007.toggleMute unmutedCallSt okMuteEnv).2.2 = .ok true) := by
  decide

/-- C8 (amended): the REST SDK's `toggleMute` (`web-sdk/src/errors.ts`) returns
the new muted state — from unmuted, a first successful call returns `true` and
a second returns `false` — while the older copy in `src/unnamed/part_007`
returns the new enabled state, i.e. `false` on that same first call. -/
theorem toggleMute_returns_muted_amended (st : SDKState) (env env2 : MuteEnv)
    (hcall : jsTruthy st.currentCallId = true)
    (htrack : st.localAudioTrackMuted = some false)
    (r1 r2 : HTTPResponse)
    (h1 : env.muteFetch = .resp r1) (h1ok : r1.ok = true) (h1s : r1.body.success = true)
    (h2 : env2.muteFetch = .resp r2) (h2ok : r2.ok = true) (h2s : r2.body.success = true) :
    (toggleMute st env).2.2 = .ok true ∧
    (toggleMute (toggleMute st env).1 env2).2.2 = .ok false ∧
    (Part007.toggleMute st env).2.2 = .ok false := by
  have hstep : toggleMute st env = ({ st with localAudioTrackMuted := some true },
      [SDKEvent.microphoneMuted true], .ok true) := by
    simp [toggleMute, hcall, htrack, h1, h1ok, h1s]
  refine ⟨by rw [hstep], ?_, ?_⟩
  · rw [hstep]
    simp [toggleMute, hcall, h2, h2ok, h2s]
  · simp [Part007.toggleMute, hcall, htrack, h1, h1ok, h1s]

/-- Witness for `toggleMute_returns_muted_amended` at the concrete unmuted
call state with successful persistence responses. -/
theorem toggleMute_returns_muted_amended_witness :
    (toggleMute unmutedCallSt okMuteEnv).2.2 = .ok true ∧
    (toggleMute (toggleMute unmutedCallSt okMuteEnv).1 okMuteEnv).2.2 = .ok false := by
  have h := toggleMute_returns_muted_amended unmutedCallSt okMuteEnv okMuteEnv
    (by decide) rfl {} {} rfl rfl rfl rfl rfl rfl
  exact ⟨h.1, h.2.1⟩

/-! ## Lemmas about the SSE stream -/

/-- The accumulation-buffer value after a sequence of `message:chunk` records
(each chunk replaces the buffer with its accumulated-so-far content when that
content is truthy). -/
def accumulateChunks (chunks : List SSEData) (acc : String) : String :=
  chunks.foldl (fun a c => jsOrStr c.accumulatedContent a) acc

theorem handleSSERecords_cons_start (now : Nat) (st : SSEState) (sd : SSEData)
    (rest : List (String × Option SSEData)) :
    handleSSERecords now st (("message:start", some sd) :: rest) =
      handleSSERecords now { st with
        currentMessageId := jsOrStr sd.messageId ("assistant-" ++ toString now),
        accumulatedContent := "" } rest := by
  simp [handleSSERecords, handleSSERecord]

theorem handleSSERecords_cons_chunk (now : Nat) (st : SSEState) (c : SSEData)
    (rest : List (String × Option SSEData)) :
    handleSSERecords now st (("message:chunk", some c) :: rest) =
      handleSSERecords now { st with
        accumulatedContent := jsOrStr c.accumulatedContent st.accumulatedContent } rest := by
  simp [handleSSERecords, handleSSERecord]

theorem handleSSERecords_chunks (now : Nat) :
    ∀ (chunks : List SSEData) (st : SSEState) (rest : List (String × Option SSEData)),
      handleSSERecords now st (chunks.map (fun c => ("message:chunk", some c)) ++ rest) =
        handleSSERecords now
          { st with accumulatedContent := accumulateChunks chunks st.accumulatedContent } rest := by
  intro chunks
  induction chunks with
  | nil => intro st rest; simp [accumulateChunks]
  | cons c cs ih =>
    intro st rest
    rw [List.map_cons, List.cons_append, handleSSERecords_cons_chunk, ih]
    simp [accumulateChunks]

theorem handleSSERecords_cons_complete_new (now : Nat) (st : SSEState) (cd : SSEData)
    (rest : List (String × Option SSEData))
    (hunseen : ((mkCompleteMessage now st cd).id.getD "") ∉ st.seen) :
    handleSSERecords now st (("message:complete", some cd) :: rest) =
      ((handleSSERecords now { st with
          seen := (mkCompleteMessage now st cd).id.getD "" :: st.seen,
          accumulatedContent := "" } rest).1,
        SDKEvent.message (mkCompleteMessage now st cd) ::
          (handleSSERecords now { st with
            seen := (mkCompleteMessage now st cd).id.getD "" :: st.seen,
            accumulatedContent := "" } rest).2.1,
        (handleSSERecords now { st with
          seen := (mkCompleteMessage now st cd).id.getD "" :: st.seen,
          accumulatedContent := "" } rest).2.2) := by
  simp [handleSSERecords, handleSSERecord, hunseen]

/-- C7: a chat streaming response made of one `message:start` record, any
number of `message:chunk` records, and one `message:complete` record whose
message object carries no role, processed against a ledger not containing the
resolved message id, emits exactly one event: a single `message` event, fired
on the `message:complete` record, with role assistant, the server-supplied or
buffered content, and the resolved id — the chunk records emit nothing, the
stream is consumed successfully, and the id is added to the ledger. -/
theorem sse_stream_single_emission (now : Nat) (seen : List String)
    (startData : SSEData) (chunks : List SSEData) (completeData : SSEData)
    (hrole : (completeData.message.getD {}).role = none)
    (hunseen : jsOrStr (completeData.message.getD {}).id
        (jsOrStr startData.messageId ("assistant-" ++ toString now)) ∉ seen) :
    (handleSSEStream now seen
        (("message:start", some startData) ::
          chunks.map (fun c => ("message:chunk", some c)) ++
          [("message:complete", some completeData)])).2.1 =
      [SDKEvent.message
        { id := some (jsOrStr (completeData.message.getD {}).id
            (jsOrStr startData.messageId ("assistant-" ++ toString now))),
          role := "assistant",
          content := jsOrStr (completeData.message.getD {}).content
            ((accumulateChunks chunks "").trim),
          timestamp := jsOrNat completeData.timestamp now,
          isComplete := true }] ∧
    (handleSSEStream now seen
        (("message:start", some startData) ::
          chunks.map (fun c => ("message:chunk", some c)) ++
          [("message:complete", some completeData)])).2.2 = .ok () ∧
    (handleSSEStream now seen
        (("message:start", some startData) ::
          chunks.map (fun c => ("message:chunk", some c)) ++
          [("message:complete", some completeData)])).1.seen =
      jsOrStr (completeData.message.getD {}).id
        (jsOrStr startData.messageId ("assistant-" ++ toString now)) :: seen := by
  have hmk : mkCompleteMessage now
      { seen := seen,
        currentMessageId := jsOrStr startData.messageId ("assistant-" ++ toString now),
        accumulatedContent := accumulateChunks chunks "" } completeData =
      { id := some (jsOrStr (completeData.message.getD {}).id
          (jsOrStr startData.messageId ("assistant-" ++ toString now))),
        role := "assistant",
        content := jsOrStr (completeData.message.getD {}).content
          ((accumulateChunks chunks "").trim),
        timestamp := jsOrNat completeData.timestamp now,
        isComplete := true } := by
    simp [mkCompleteMessage, hrole, jsOrStr]
  rw [handleSSEStream, List.cons_append, handleSSERecords_cons_start, handleSSERecords_chunks,
    handleSSERecords_cons_complete_new _ _ _ _ (by rw [hmk]; simpa using hunseen)]
  rw [hmk]
  simp [handleSSERecords]

/-- The `message:start` record of the "Hello there" scenario. -/
def sseStart : SSEData := { messageId := some "as_1" }

/-- The three `message:chunk` records of the scenario. -/
def sseChunk1 : SSEData := { accumulatedContent := some "Hel" }

/-- Second chunk. -/
def sseChunk2 : SSEData := { accumulatedContent := some "Hello th" }

/-- Third chunk. -/
def sseChunk3 : SSEData := { accumulatedContent := some "Hello there" }

/-- The `message:complete` record carrying the final content. -/
def sseComplete : SSEData :=
  { message := some { content := some "Hello there" }, timestamp := some 5 }

/-- Witness for `sse_stream_single_emission`: the start/three-chunks/complete
scenario emits exactly one assistant message with content "Hello there". -/
theorem sse_stream_single_emission_witness :
    (handleSSEStream 7 []
        (("message:start", some sseStart) ::
          [sseChunk1, sseChunk2, sseChunk3].map (fun c => ("message:chunk", some c)) ++
          [("message:complete", some sseComplete)])).2.1 =
      [SDKEvent.message
        { id := some "as_1", role := "assistant", content := "Hello there",
          timestamp := 5, isComplete := true }] := by
  have h := sse_stream_single_emission 7 [] sseStart [sseChunk1, sseChunk2, sseChunk3]
    sseComplete rfl (by decide)
  rw [h.1]
  decide

/-! ## The public operations as a transition system -/

/-- One public SDK operation together with the environment of its effects. -/
inductive SDKOp where
  | opStartCall (cfg : WespokeConfig) (env : StartCallEnv)
  | opEndCall (env : EndCallEnv)
  | opToggleMute (env : MuteEnv)
  | opStartChatSession (env : StartChatEnv)
  | opEndChatSession (env : EndChatEnv)
  | opSendChatMessage (env : SendChatEnv) (content : String)

/-- Run one public operation, returning the next state and the emitted trace. -/
def runOp (st : SDKState) : SDKOp → SDKState × List SDKEvent
  | .opStartCall cfg env => ((startCall cfg st env).1, (startCall cfg st env).2.1)
  | .opEndCall env => ((endCall st env).1, (endCall st env).2.1)
  | .opToggleMute env => ((toggleMute st env).1, (toggleMute st env).2.1)
  | .opStartChatSession env => ((startChatSession st env).1, (startChatSession st env).2.1)
  | .opEndChatSession env => ((endChatSession st env).1, (endChatSession st env).2.1)
  | .opSendChatMessage env content =>
    ((sendChatMessage st env content).1, (sendChatMessage st env content).2.1)

/-- Mutual-exclusion invariant: whenever a chat id is set, the shared state is
`CONNECTED` or `DISCONNECTING` and no voice-call id is set (so voice and chat
are never both active). -/
def mutexInv (st : SDKState) : Prop :=
  jsTruthy st.currentChatId = true →
    (st.callState = .CONNECTED ∨ st.callState = .DISCONNECTING) ∧
    jsTruthy st.currentCallId = false

theorem setState_chatId (st : SDKState) (n : CallState) :
    (setState st n).1.currentChatId = st.currentChatId := by
  by_cases h : st.callState = n <;> simp [setState, h]

theorem setState_callId (st : SDKState) (n : CallState) :
    (setState st n).1.currentCallId = st.currentCallId := by
  by_cases h : st.callState = n <;> simp [setState, h]

theorem startCall_chatId (cfg : WespokeConfig) (st : SDKState) (env : StartCallEnv) :
    (startCall cfg st env).1.currentChatId = st.currentChatId := by
  by_cases hguard : st.callState ≠ .IDLE ∧ st.callState ≠ .DISCONNECTED
  · simp [startCall, hguard]
  · rcases hf : fetchToken env.tokenFetch with e | td
    · simp [startCall, hguard, hf, startCallFail, setState_chatId]
    · rcases hconn : (connectToRoom true env.connectEnv cfg.maxRetryAttempts cfg.retryDelay).1
        with e | u
      · simp [startCall, hguard, hf, hconn, startCallFail, setState_chatId]
      · rcases hpub : env.publishOutcome with e | u2
        · simp [startCall, hguard, hf, hconn, publishLocalAudio, hpub, startCallFail,
            setState_chatId]
        · simp only [startCall, if_neg hguard, hf]
          simp [hconn, publishLocalAudio, hpub, setState_chatId, apply_ite SDKState.currentChatId]

theorem startCall_blocked (cfg : WespokeConfig) (st : SDKState) (env : StartCallEnv)
    (h1 : st.callState ≠ .IDLE) (h2 : st.callState ≠ .DISCONNECTED) :
    startCall cfg st env =
      (st, [], .error { message := "A call is already in progress", code := "CALL_IN_PROGRESS" }) := by
  simp [startCall, h1, h2]

theorem endCall_chatId (st : SDKState) (env : EndCallEnv) :
    (endCall st env).1.currentChatId = st.currentChatId := by
  unfold endCall
  split
  · rfl
  · split <;> simp [setState_chatId]

theorem toggleMute_projections (st : SDKState) (env : MuteEnv) :
    (toggleMute st env).1.currentChatId = st.currentChatId ∧
    (toggleMute st env).1.currentCallId = st.currentCallId ∧
    (toggleMute st env).1.callState = st.callState := by
  unfold toggleMute
  split
  · exact ⟨rfl, rfl, rfl⟩
  split
  · exact ⟨rfl, rfl, rfl⟩
  split
  · exact ⟨rfl, rfl, rfl⟩
  split
  · exact ⟨rfl, rfl, rfl⟩
  · exact ⟨rfl, rfl, rfl⟩

theorem sendChatMessage_projections (st : SDKState) (env : SendChatEnv) (content : String) :
    (sendChatMessage st env content).1.currentChatId = st.currentChatId ∧
    (sendChatMessage st env content).1.currentCallId = st.currentCallId ∧
    (sendChatMessage st env content).1.callState = st.callState := by
  simp only [sendChatMessage]
  split
  · exact ⟨rfl, rfl, rfl⟩
  split
  · exact ⟨rfl, rfl, rfl⟩
  split
  · split <;> exact ⟨rfl, rfl, rfl⟩
  · split <;> split <;> exact ⟨rfl, rfl, rfl⟩

theorem startChatFail_chatId (st : SDKState) (evs : List SDKEvent) (e : WespokeError) :
    (startChatFail st evs e).1.currentChatId = st.currentChatId := by
  unfold startChatFail
  simp [setState_chatId]

theorem endChatSession_chat_falsy (st : SDKState) (env : EndChatEnv) :
    jsTruthy (endChatSession st env).1.currentChatId = false := by
  unfold endChatSession
  split
  · rename_i h
    rw [setState_chatId]
    simpa using h.2.2
  split
  · rename_i h1 h2
    simpa using h2
  · split <;> simp [setState_chatId, jsTruthy]

theorem startChatSession_shape (st : SDKState) (env : StartChatEnv)
    (hchat : jsTruthy st.currentChatId = false)
    (hguard : ¬((st.callState ≠ .IDLE ∧ st.callState ≠ .DISCONNECTED) ∨
      jsTruthy st.currentCallId = true)) :
    jsTruthy (startChatSession st env).1.currentChatId = false ∨
    ((startChatSession st env).1.callState = .CONNECTED ∧
      (startChatSession st env).1.currentCallId = st.currentCallId) := by
  unfold startChatSession
  rw [if_neg (by simp [hchat]), if_neg hguard]
  simp only []
  split
  · -- a thrown creation request
    split
    · left
      simp [setState_chatId, hchat]
    · left
      simp [startChatFail_chatId, setState_chatId, hchat]
  · -- a creation response
    split
    · left
      simp [startChatFail_chatId, setState_chatId, hchat]
    · split
      · -- the should-end race: the nested endChatSession leaves no chat id
        split
        · left
          simpa using endChatSession_chat_falsy _ _
        · split
          · left
            simpa [setState_chatId] using endChatSession_chat_falsy _ _
          · left
            simpa [startChatFail_chatId] using endChatSession_chat_falsy _ _
      · right
        constructor
        · simp [setState_state]
        · simp [setState_callId]

theorem startCall_preserves_mutex (cfg : WespokeConfig) (st : SDKState) (env : StartCallEnv)
    (hinv : mutexInv st) : mutexInv (startCall cfg st env).1 := by
  by_cases hchat : jsTruthy st.currentChatId = true
  · obtain ⟨hcs, hcid⟩ := hinv hchat
    have h1 : st.callState ≠ .IDLE := by rcases hcs with h | h <;> simp [h]
    have h2 : st.callState ≠ .DISCONNECTED := by rcases hcs with h | h <;> simp [h]
    rw [startCall_blocked cfg st env h1 h2]
    exact hinv
  · intro habs
    rw [startCall_chatId] at habs
    exact absurd habs hchat

theorem endCall_preserves_mutex (st : SDKState) (env : EndCallEnv)
    (hinv : mutexInv st) : mutexInv (endCall st env).1 := by
  by_cases hchat : jsTruthy st.currentChatId = true
  · obtain ⟨hcs, hcid⟩ := hinv hchat
    have hg : endCall st env = (st, [], .ok ()) := by
      unfold endCall
      rw [if_pos (Or.inr (by simp [hcid]))]
    rw [hg]
    exact hinv
  · intro habs
    rw [endCall_chatId] at habs
    exact absurd habs hchat

theorem toggleMute_preserves_mutex (st : SDKState) (env : MuteEnv)
    (hinv : mutexInv st) : mutexInv (toggleMute st env).1 := by
  obtain ⟨hch, hci, hcs⟩ := toggleMute_projections st env
  intro habs
  rw [hch] at habs
  obtain ⟨h1, h2⟩ := hinv habs
  rw [hcs, hci]
  exact ⟨h1, h2⟩

theorem sendChatMessage_preserves_mutex (st : SDKState) (env : SendChatEnv) (content : String)
    (hinv : mutexInv st) : mutexInv (sendChatMessage st env content).1 := by
  obtain ⟨hch, hci, hcs⟩ := sendChatMessage_projections st env content
  intro habs
  rw [hch] at habs
  obtain ⟨h1, h2⟩ := hinv habs
  rw [hcs, hci]
  exact ⟨h1, h2⟩

theorem endChatSession_preserves_mutex (st : SDKState) (env : EndChatEnv)
    (_hinv : mutexInv st) : mutexInv (endChatSession st env).1 := by
  intro habs
  rw [endChatSession_chat_falsy] at habs
  exact Bool.noConfusion habs

theorem startChatSession_preserves_mutex (st : SDKState) (env : StartChatEnv)
    (hinv : mutexInv st) : mutexInv (startChatSession st env).1 := by
  by_cases hchat : jsTruthy st.currentChatId = true
  · have heq : startChatSession st env = (st, [],
        .error { message := "A chat session is already in progress",
                 code := "CHAT_IN_PROGRESS" }) := by
      unfold startChatSession
      rw [if_pos hchat]
    rw [heq]
    exact hinv
  · have hchat' : jsTruthy st.currentChatId = false := by simpa using hchat
    by_cases hguard : (st.callState ≠ .IDLE ∧ st.callState ≠ .DISCONNECTED) ∨
        jsTruthy st.currentCallId = true
    · have heq : startChatSession st env = (st, [],
          .error { message := "Cannot start chat while a voice call is active",
                   code := "CALL_IN_PROGRESS" }) := by
        unfold startChatSession
        rw [if_neg (by simp [hchat']), if_pos hguard]
      rw [heq]
      exact hinv
    · rcases startChatSession_shape st env hchat' hguard with hfalsy | hconn
      · intro habs
        rw [hfalsy] at habs
        exact Bool.noConfusion habs
      · intro _
        refine ⟨Or.inl hconn.1, ?_⟩
        rw [hconn.2]
        have hnc : ¬ jsTruthy st.currentCallId = true := fun hc => hguard (Or.inr hc)
        simpa using hnc

theorem runOp_preserves_mutex (st : SDKState) (op : SDKOp)
    (hinv : mutexInv st) : mutexInv (runOp st op).1 := by
  cases op with
  | opStartCall cfg env => exact startCall_preserves_mutex cfg st env hinv
  | opEndCall env => exact endCall_preserves_mutex st env hinv
  | opToggleMute env => exact toggleMute_preserves_mutex st env hinv
  | opStartChatSession env => exact startChatSession_preserves_mutex st env hinv
  | opEndChatSession env => exact endChatSession_preserves_mutex st env hinv
  | opSendChatMessage env content => exact sendChatMessage_preserves_mutex st env content hinv

/-- C4: with no chat id assigned, `startChatSession` invoked while a voice-call
id is set or the shared state is neither `IDLE` nor `DISCONNECTED` fails fast
with the `CALL_IN_PROGRESS` error and leaves the entire state unchanged (no
chat id assigned, state as before — still `IDLE` in the Idle case) and emits
nothing; moreover the mutual-exclusion invariant holds initially, is preserved
by every public operation, and implies that voice and chat sessions are never
both active. -/
theorem startChatSession_guard_mutex :
    (∀ (st : SDKState) (env : StartChatEnv), jsTruthy st.currentChatId = false →
      (jsTruthy st.currentCallId = true ∨
        (st.callState ≠ .IDLE ∧ st.callState ≠ .DISCONNECTED)) →
      startChatSession st env = (st, [],
        .error { message := "Cannot start chat while a voice call is active",
                 code := "CALL_IN_PROGRESS" })) ∧
    mutexInv {} ∧
    (∀ (st : SDKState) (op : SDKOp), mutexInv st → mutexInv (runOp st op).1) ∧
    (∀ (st : SDKState), mutexInv st →
      ¬ (jsTruthy st.currentCallId = true ∧ jsTruthy st.currentChatId = true)) := by
  refine ⟨?_, ?_, ?_, ?_⟩
  · intro st env hchat hcond
    unfold startChatSession
    rw [if_neg (by simp [hchat]),
      if_pos (by rcases hcond with h | h; exacts [Or.inr h, Or.inl h])]
  · intro habs
    exact absurd habs (by decide)
  · exact runOp_preserves_mutex
  · intro st hinv hboth
    exact absurd hboth.1 (by simpa using (hinv hboth.2).2)

/-- Witness for `startChatSession_guard_mutex`: starting a chat while a voice
call is connected fails with `CALL_IN_PROGRESS` and changes nothing. -/
theorem startChatSession_guard_mutex_witness :
    startChatSession { callState := .CONNECTED, currentCallId := some "call_1" }
        { chatFetch := .resp {} } =
      ({ callState := .CONNECTED, currentCallId := some "call_1" }, [],
        .error { message := "Cannot start chat while a voice call is active",
                 code := "CALL_IN_PROGRESS" }) := by
  exact startChatSession_guard_mutex.1
    { callState := .CONNECTED, currentCallId := some "call_1" }
    { chatFetch := .resp {} } rfl (Or.inl (by decide))

/-! ## The stateChange trace invariant -/

theorem stateChangeValues_append (a b : List SDKEvent) :
    stateChangeValues (a ++ b) = stateChangeValues a ++ stateChangeValues b := by
  simp [stateChangeValues]

/-- The trace of `stateChange` emissions, prefixed with the state it started
from, never repeats a value in adjacent positions. -/
def chainOK (s0 : CallState) (evs : List SDKEvent) : Prop :=
  List.Chain' (fun a b => a ≠ b) (s0 :: stateChangeValues evs)

/-- The state carried by the final `stateChange` emission of a trace, or the
starting state when the trace emitted none. -/
def lastState (s0 : CallState) (evs : List SDKEvent) : CallState :=
  (stateChangeValues evs).getLast?.getD s0

theorem chainOK_noStates (s0 : CallState) (evs : List SDKEvent)
    (h : stateChangeValues evs = []) : chainOK s0 evs ∧ lastState s0 evs = s0 := by
  simp [chainOK, lastState, h]

theorem getLast?_cons_getD (s0 : CallState) (l : List CallState) :
    (s0 :: l).getLast? = some (l.getLast?.getD s0) := by
  cases l with
  | nil => rfl
  | cons a as =>
    rw [List.getLast?_cons_cons]
    cases h : (a :: as).getLast? with
    | none => exact absurd h (by simp)
    | some x => simp [h]

theorem chainOK_append (s0 : CallState) (e1 e2 : List SDKEvent)
    (h1 : chainOK s0 e1) (h2 : chainOK (lastState s0 e1) e2) :
    chainOK s0 (e1 ++ e2) ∧
    lastState s0 (e1 ++ e2) = lastState (lastState s0 e1) e2 := by
  obtain ⟨hhead, htail⟩ := List.chain'_cons'.mp h2
  constructor
  · unfold chainOK
    rw [stateChangeValues_append,
      show s0 :: (stateChangeValues e1 ++ stateChangeValues e2) =
        (s0 :: stateChangeValues e1) ++ stateChangeValues e2 from rfl,
      List.chain'_append]
    refine ⟨h1, htail, ?_⟩
    intro x hx y hy
    rw [getLast?_cons_getD] at hx
    obtain rfl : x = lastState s0 e1 := by
      have hx2 := hx
      simp [lastState] at hx2
      exact hx2.symm
    exact hhead y hy
  · unfold lastState
    rw [stateChangeValues_append]
    cases hv : stateChangeValues e2 with
    | nil => simp [lastState, hv]
    | cons b bs =>
      rw [List.getLast?_append_of_ne_nil _ (by simp)]
      have hne : (b :: bs).getLast? ≠ none := by simp
      cases h : (b :: bs).getLast? with
      | none => exact absurd h hne
      | some x => simp [lastState, hv, h]

theorem chainOK_setState (st : SDKState) (n : CallState) :
    chainOK st.callState (setState st n).2 ∧
    lastState st.callState (setState st n).2 = n := by
  by_cases h : st.callState = n
  · constructor
    · simp [setState, h, chainOK, stateChangeValues]
    · simp [setState, h, lastState, stateChangeValues]
  · constructor
    · simp [setState, h, chainOK, stateChangeValues, List.chain'_cons]
    · simp [setState, h, lastState, stateChangeValues]

theorem toggleMute_no_stateChange (st : SDKState) (env : MuteEnv) :
    stateChangeValues (toggleMute st env).2.1 = [] := by
  unfold toggleMute
  split
  · simp [stateChangeValues]
  split
  · simp [stateChangeValues]
  split
  · simp [stateChangeValues]
  split
  · simp [stateChangeValues]
  · simp [stateChangeValues]

theorem handleSSERecord_no_stateChange (now : Nat) (st : SSEState) (et : String) (d : SSEData) :
    stateChangeValues (handleSSERecord now st et d).2.1 = [] := by
  unfold handleSSERecord
  split <;> simp [stateChangeValues]
  intro a ha
  split at ha
  · simp at ha
  · simp at ha
    subst ha
    simp

theorem handleSSERecords_no_stateChange (now : Nat) :
    ∀ (records : List (String × Option SSEData)) (st : SSEState),
      stateChangeValues (handleSSERecords now st records).2.1 = [] := by
  intro records
  induction records with
  | nil => intro st; simp [handleSSERecords, stateChangeValues]
  | cons r rest ih =>
    intro st
    rcases r with ⟨et, dOpt⟩
    cases dOpt with
    | none => simpa [handleSSERecords] using ih st
    | some d =>
      by_cases he : et = ""
      · simp only [handleSSERecords, he, if_true]
        exact ih st
      · simp only [handleSSERecords, if_neg he]
        split
        · simpa using handleSSERecord_no_stateChange now st et d
        · rw [stateChangeValues_append, handleSSERecord_no_stateChange now st et d, ih]
          rfl

theorem sendChatMessage_no_stateChange (st : SDKState) (env : SendChatEnv) (content : String) :
    stateChangeValues (sendChatMessage st env content).2.1 = [] := by
  simp only [sendChatMessage]
  split
  · simp [stateChangeValues]
  split
  · simp [stateChangeValues]
  split
  · split <;> simp [stateChangeValues, stateChangeValues_append]
  · split <;> split <;>
      (simp only [stateChangeValues_append, handleSSEStream,
        handleSSERecords_no_stateChange]) <;>
      simp [stateChangeValues]

theorem startCallFail_chainOK (st : SDKState) (evs : List SDKEvent) (e : WespokeError)
    (s0 : CallState) (h1 : chainOK s0 evs) (h2 : lastState s0 evs = st.callState) :
    chainOK s0 (startCallFail st evs e).2.1 := by
  have hevs : (startCallFail st evs e).2.1 =
      evs ++ (setState st .IDLE).2 ++ [SDKEvent.errorEvent e] := rfl
  rw [hevs]
  have ha1 := chainOK_append s0 evs (setState st .IDLE).2 h1
    (by rw [h2]; exact (chainOK_setState st .IDLE).1)
  exact (chainOK_append s0 (evs ++ (setState st .IDLE).2) [SDKEvent.errorEvent e] ha1.1
    (chainOK_noStates _ _ (by simp [stateChangeValues])).1).1

theorem startCall_chainOK (cfg : WespokeConfig) (st : SDKState) (env : StartCallEnv) :
    chainOK st.callState (startCall cfg st env).2.1 := by
  by_cases hguard : st.callState ≠ .IDLE ∧ st.callState ≠ .DISCONNECTED
  · have hevs : (startCall cfg st env).2.1 = [] := by simp [startCall, hguard]
    rw [hevs]
    exact (chainOK_noStates _ [] rfl).1
  · have hs1 := chainOK_setState st .CONNECTING
    rcases hf : fetchToken env.tokenFetch with e | td
    · have hevs : (startCall cfg st env).2.1 =
          (startCallFail { (setState st .CONNECTING).1 with seenMessageIds := [] }
            (setState st .CONNECTING).2 e).2.1 := by
        simp only [startCall, if_neg hguard, hf]
      rw [hevs]
      refine startCallFail_chainOK _ _ _ _ hs1.1 ?_
      rw [hs1.2]
      simp [setState_state]
    · rcases hconn : (connectToRoom true env.connectEnv cfg.maxRetryAttempts cfg.retryDelay).1
        with e | u
      · have hevs : (startCall cfg st env).2.1 =
            (startCallFail { (setState st .CONNECTING).1 with
                seenMessageIds := [], currentCallId := some td.callId, roomExists := true,
                abortControllerActive := true }
              (setState st .CONNECTING).2 e).2.1 := by
          simp only [startCall, if_neg hguard, hf]
          simp [hconn]
        rw [hevs]
        refine startCallFail_chainOK _ _ _ _ hs1.1 ?_
        rw [hs1.2]
        simp [setState_state]
      · rcases hpub : env.publishOutcome with e | u2
        · have hevs : (startCall cfg st env).2.1 =
              (startCallFail { (setState st .CONNECTING).1 with
                  seenMessageIds := [], currentCallId := some td.callId, roomExists := true,
                  abortControllerActive := true }
                (setState st .CONNECTING).2 (MediaDevicesError "Failed to access microphone")).2.1 := by
            simp only [startCall, if_neg hguard, hf]
            simp [hconn, publishLocalAudio, hpub]
          rw [hevs]
          refine startCallFail_chainOK _ _ _ _ hs1.1 ?_
          rw [hs1.2]
          simp [setState_state]
        · -- every step succeeds: the trace is CONNECTING then CONNECTED
          simp only [startCall, if_neg hguard, hf]
          simp only [hconn, publishLocalAudio, hpub]
          refine (chainOK_append _ _ _ hs1.1 ?_).1
          rw [hs1.2]
          convert (chainOK_setState _ .CONNECTED).1 using 2
          split <;> simp [setState_state]

theorem endCall_chainOK (st : SDKState) (env : EndCallEnv) :
    chainOK st.callState (endCall st env).2.1 := by
  unfold endCall
  split
  · exact (chainOK_noStates _ [] rfl).1
  · split
    · refine (chainOK_append _ _ _ (chainOK_setState st .DISCONNECTING).1 ?_).1
      exact (chainOK_noStates _ _ (by simp [stateChangeValues])).1
    · refine (chainOK_append _ _ _ (chainOK_setState st .DISCONNECTING).1 ?_).1
      rw [(chainOK_setState st .DISCONNECTING).2]
      convert (chainOK_setState _ .DISCONNECTED).1 using 2
      simp [setState_state]

theorem stateChangeValues_setState (st : SDKState) (n : CallState) :
    stateChangeValues (setState st n).2 = if st.callState = n then [] else [n] := by
  by_cases h : st.callState = n <;> simp [setState, h, stateChangeValues]

theorem stateChangeValues_disc_err (s : Option String) (e : WespokeError) :
    stateChangeValues [SDKEvent.disconnected s, SDKEvent.errorEvent e] = [] := rfl

theorem stateChangeValues_disc (s : Option String) :
    stateChangeValues [SDKEvent.disconnected s] = [] := rfl

theorem startChatFail_trace (st : SDKState) (evs : List SDKEvent) (e : WespokeError) :
    stateChangeValues (startChatFail st evs e).2.1 =
      stateChangeValues evs ++ (if st.callState = .IDLE then [] else [CallState.IDLE]) := by
  have hevs : (startChatFail st evs e).2.1 =
      evs ++ (setState st .IDLE).2 ++
        [SDKEvent.disconnected (some "Chat session failed to start"), SDKEvent.errorEvent e] := rfl
  rw [hevs, stateChangeValues_append, stateChangeValues_append, stateChangeValues_setState,
    stateChangeValues_disc_err, List.append_nil]

theorem startChatFail_callState (st : SDKState) (evs : List SDKEvent) (e : WespokeError) :
    (startChatFail st evs e).1.callState = .IDLE := by
  unfold startChatFail
  simp [setState_state]

theorem endChatSession_trace_connecting (st : SDKState) (env : EndChatEnv)
    (h : st.callState = .CONNECTING) :
    (stateChangeValues (endChatSession st env).2.1 = [CallState.IDLE] ∧
      (endChatSession st env).1.callState = .IDLE) ∨
    (stateChangeValues (endChatSession st env).2.1 = [] ∧
      (endChatSession st env).1.callState = .CONNECTING) ∨
    (stateChangeValues (endChatSession st env).2.1 =
        [CallState.DISCONNECTING, CallState.DISCONNECTED] ∧
      (endChatSession st env).1.callState = .DISCONNECTED) := by
  unfold endChatSession
  split
  · left
    constructor
    · simp [stateChangeValues_setState, h]
    · simp [setState_state]
  split
  · right; left
    exact ⟨rfl, h⟩
  · split
    · right; right
      constructor
      · simp [stateChangeValues_append, stateChangeValues_setState, h, setState_state,
          stateChangeValues_disc_err]
      · simp [setState_state]
    · right; right
      constructor
      · simp [stateChangeValues_append, stateChangeValues_setState, h, setState_state,
          stateChangeValues_disc]
      · simp [setState_state]

theorem stateChangeValues_connected :
    stateChangeValues [SDKEvent.connected] = [] := rfl

theorem chainOK_of_values (s0 : CallState) (evs : List SDKEvent) (vs : List CallState)
    (h : stateChangeValues evs = vs)
    (h2 : List.Chain' (fun a b => a ≠ b) (s0 :: vs)) : chainOK s0 evs := by
  unfold chainOK
  rw [h]
  exact h2

theorem endChatSession_chainOK (st : SDKState) (env : EndChatEnv) :
    chainOK st.callState (endChatSession st env).2.1 := by
  unfold endChatSession
  split
  · exact (chainOK_setState { st with shouldEndChatAfterStart := true } .IDLE).1
  split
  · exact (chainOK_noStates _ [] rfl).1
  · split
    · by_cases h : st.callState = .DISCONNECTING
      · apply chainOK_of_values _ _ [CallState.DISCONNECTED]
        · simp [stateChangeValues_append, stateChangeValues_setState, h, setState_state,
            stateChangeValues_disc_err]
        · rw [h]
          simp [List.chain'_cons]
      · apply chainOK_of_values _ _ [CallState.DISCONNECTING, CallState.DISCONNECTED]
        · simp [stateChangeValues_append, stateChangeValues_setState, h, setState_state,
            stateChangeValues_disc_err]
        · simp [List.chain'_cons, h]
    · by_cases h : st.callState = .DISCONNECTING
      · apply chainOK_of_values _ _ [CallState.DISCONNECTED]
        · simp [stateChangeValues_append, stateChangeValues_setState, h, setState_state,
            stateChangeValues_disc]
        · rw [h]
          simp [List.chain'_cons]
      · apply chainOK_of_values _ _ [CallState.DISCONNECTING, CallState.DISCONNECTED]
        · simp [stateChangeValues_append, stateChangeValues_setState, h, setState_state,
            stateChangeValues_disc]
        · simp [List.chain'_cons, h]

theorem startChatSession_chainOK (st : SDKState) (env : StartChatEnv) :
    chainOK st.callState (startChatSession st env).2.1 := by
  unfold startChatSession
  split
  · exact (chainOK_noStates _ [] rfl).1
  split
  · exact (chainOK_noStates _ [] rfl).1
  · rename_i hchat hguard
    have hstate : st.callState = .IDLE ∨ st.callState = .DISCONNECTED := by
      rcases not_or.mp hguard with ⟨h1, _h2⟩
      by_cases hI : st.callState = .IDLE
      · exact Or.inl hI
      · right
        by_contra hD
        exact h1 ⟨hI, hD⟩
    have hne : st.callState ≠ .CONNECTING := by
      rcases hstate with h | h <;> simp [h]
    have hchain : ∀ vs : List CallState,
        List.Chain' (fun a b => a ≠ b) (CallState.CONNECTING :: vs) →
        List.Chain' (fun a b => a ≠ b) (st.callState :: CallState.CONNECTING :: vs) :=
      fun vs hv => List.chain'_cons.mpr ⟨hne, hv⟩
    simp only []
    split
    · split
      · apply chainOK_of_values _ _ [CallState.CONNECTING, CallState.IDLE]
        · simp [stateChangeValues_append, stateChangeValues_setState, hne, setState_state,
            stateChangeValues_disc]
        · exact hchain _ (by simp [List.chain'_cons])
      · apply chainOK_of_values _ _ [CallState.CONNECTING, CallState.IDLE]
        · rw [startChatFail_trace]
          simp [stateChangeValues_setState, hne, setState_state]
        · exact hchain _ (by simp [List.chain'_cons])
    · split
      · apply chainOK_of_values _ _ [CallState.CONNECTING, CallState.IDLE]
        · rw [startChatFail_trace]
          simp [stateChangeValues_setState, hne, setState_state]
        · exact hchain _ (by simp [List.chain'_cons])
      · rename_i r _heqf _hok
        split
        · have htr := endChatSession_trace_connecting
            { (setState st .CONNECTING).1 with
              seenMessageIds := [],
              chatAbortControllerActive := true,
              shouldEndChatAfterStart := env.endRequestedWhileConnecting,
              currentChatId := some r.chatId } env.endEnv (by simp [setState_state])
          split
          · rcases htr with ⟨hv, _hc⟩ | ⟨hv, _hc⟩ | ⟨hv, _hc⟩
            · apply chainOK_of_values _ _ [CallState.CONNECTING, CallState.IDLE]
              · simp [stateChangeValues_append, stateChangeValues_setState, hne, hv]
              · exact hchain _ (by simp [List.chain'_cons])
            · apply chainOK_of_values _ _ [CallState.CONNECTING]
              · simp [stateChangeValues_append, stateChangeValues_setState, hne, hv]
              · exact hchain _ (by simp)
            · apply chainOK_of_values _ _
                [CallState.CONNECTING, CallState.DISCONNECTING, CallState.DISCONNECTED]
              · simp [stateChangeValues_append, stateChangeValues_setState, hne, hv]
              · exact hchain _ (by simp [List.chain'_cons])
          · split
            · rcases htr with ⟨hv, hc⟩ | ⟨hv, hc⟩ | ⟨hv, hc⟩
              · apply chainOK_of_values _ _ [CallState.CONNECTING, CallState.IDLE]
                · simp [stateChangeValues_append, stateChangeValues_setState, hne, hv, hc,
                    stateChangeValues_disc]
                · exact hchain _ (by simp [List.chain'_cons])
              · apply chainOK_of_values _ _ [CallState.CONNECTING, CallState.IDLE]
                · simp [stateChangeValues_append, stateChangeValues_setState, hne, hv, hc,
                    stateChangeValues_disc]
                · exact hchain _ (by simp [List.chain'_cons])
              · apply chainOK_of_values _ _
                  [CallState.CONNECTING, CallState.DISCONNECTING, CallState.DISCONNECTED,
                    CallState.IDLE]
                · simp [stateChangeValues_append, stateChangeValues_setState, hne, hv, hc,
                    stateChangeValues_disc]
                · exact hchain _ (by simp [List.chain'_cons])
            · rcases htr with ⟨hv, hc⟩ | ⟨hv, hc⟩ | ⟨hv, hc⟩
              · apply chainOK_of_values _ _ [CallState.CONNECTING, CallState.IDLE]
                · rw [startChatFail_trace]
                  simp [stateChangeValues_append, stateChangeValues_setState, hne, hv, hc]
                · exact hchain _ (by simp [List.chain'_cons])
              · apply chainOK_of_values _ _ [CallState.CONNECTING, CallState.IDLE]
                · rw [startChatFail_trace]
                  simp [stateChangeValues_append, stateChangeValues_setState, hne, hv, hc]
                · exact hchain _ (by simp [List.chain'_cons])
              · apply chainOK_of_values _ _
                  [CallState.CONNECTING, CallState.DISCONNECTING, CallState.DISCONNECTED,
                    CallState.IDLE]
                · rw [startChatFail_trace]
                  simp [stateChangeValues_append, stateChangeValues_setState, hne, hv, hc]
                · exact hchain _ (by simp [List.chain'_cons])
        · apply chainOK_of_values _ _ [CallState.CONNECTING, CallState.CONNECTED]
          · simp [stateChangeValues_append, stateChangeValues_setState, hne, setState_state,
              stateChangeValues_connected]
          · exact hchain _ (by simp [List.chain'_cons])

theorem toggleMute_chainOK (st : SDKState) (env : MuteEnv) :
    chainOK st.callState (toggleMute st env).2.1 :=
  (chainOK_noStates _ _ (toggleMute_no_stateChange st env)).1

theorem sendChatMessage_chainOK (st : SDKState) (env : SendChatEnv) (content : String) :
    chainOK st.callState (sendChatMessage st env content).2.1 :=
  (chainOK_noStates _ _ (sendChatMessage_no_stateChange st env content)).1

theorem setStates_chainOK (ns : List CallState) : ∀ st : SDKState,
    chainOK st.callState (setStates st ns).2 ∧
    lastState st.callState (setStates st ns).2 = (setStates st ns).1.callState := by
  induction ns with
  | nil => exact fun st => ⟨(chainOK_noStates _ [] rfl).1, rfl⟩
  | cons n ns ih =>
    intro st
    have h1 := chainOK_setState st n
    have h2 := ih (setState st n).1
    have hcs : (setState st n).1.callState = n := setState_state st n
    rw [hcs] at h2
    have ha := chainOK_append st.callState (setState st n).2 (setStates (setState st n).1 ns).2
      h1.1 (by rw [h1.2]; exact h2.1)
    constructor
    · exact ha.1
    · show lastState st.callState
        ((setState st n).2 ++ (setStates (setState st n).1 ns).2) =
        (setStates (setState st n).1 ns).1.callState
      rw [ha.2, h1.2]
      exact h2.2

theorem runOp_chainOK (st : SDKState) (op : SDKOp) :
    chainOK st.callState (runOp st op).2 := by
  cases op with
  | opStartCall cfg env => exact startCall_chainOK cfg st env
  | opEndCall env => exact endCall_chainOK st env
  | opToggleMute env => exact toggleMute_chainOK st env
  | opStartChatSession env => exact startChatSession_chainOK st env
  | opEndChatSession env => exact endChatSession_chainOK st env
  | opSendChatMessage env content => exact sendChatMessage_chainOK st env content

/-- **C10.** `setState` (`errors.ts` lines 1244-1249) emits a `stateChange`
event if and only if the new state differs from the current one — exactly
`[stateChange newState]` on a change and nothing otherwise; consequently
along any sequence of `setState` calls, and along the trace of every public
operation (`startCall`, `endCall`, `toggleMute`, `startChatSession`,
`endChatSession`, `sendChatMessage`), no two consecutive `stateChange`
emissions carry the same state value: the emitted state trace prefixed with
the starting state is adjacent-distinct. -/
theorem setState_emits_iff_changed :
    (∀ (st : SDKState) (n : CallState),
      (setState st n).2 = (if st.callState = n then [] else [SDKEvent.stateChange n]) ∧
      ((setState st n).2 ≠ [] ↔ n ≠ st.callState)) ∧
    (∀ (st : SDKState) (ns : List CallState),
      List.Chain' (fun a b => a ≠ b) (st.callState :: stateChangeValues (setStates st ns).2)) ∧
    (∀ (st : SDKState) (op : SDKOp),
      List.Chain' (fun a b => a ≠ b) (st.callState :: stateChangeValues (runOp st op).2)) := by
  refine ⟨fun st n => ⟨?_, ?_⟩, fun st ns => (setStates_chainOK ns st).1,
    fun st op => runOp_chainOK st op⟩
  · by_cases h : st.callState = n <;> simp [setState, h]
  · by_cases h : st.callState = n
    · simp [setState, h]
    · simp [setState, h]
      exact fun hh => h hh.symm

/-- An active voice-call session: connected, with a call id, polling running,
a room, an unmuted local track, the assistant present, one attached remote
track, and a non-empty dedup ledger. -/
def endCallActiveSt : SDKState :=
  { callState := .CONNECTED, currentCallId := some "call_9", pollingActive := true,
    roomExists := true, localAudioTrackMuted := some false, assistantPresent := true,
    attachedTracks := ["track_1"], seenMessageIds := ["msg_1"] }

/-- A network-level rejection of the termination fetch (a browser `TypeError`,
e.g. "Failed to fetch"), as opposed to a non-2xx HTTP response. -/
def endCallNetErr : WespokeError :=
  { message := "Failed to fetch", code := "NETWORK_ERROR", name := "TypeError" }

/-- **C6.** The claim holds only for the non-ok-response half: when the
termination request resolves (with any response, 2xx or not), `endCall`
(`errors.ts` lines 267-331) runs the full local cleanup — polling stopped,
tracks detached, local track dropped, assistant reference dropped, room
disconnected, call id and dedup ledger cleared, state `DISCONNECTED`.  But
when the fetch itself rejects (a network-level failure of the same
server-side termination call), the `catch` block at lines 326-330 emits the
error and rethrows before any cleanup statement runs: the state stays
`DISCONNECTING` and the call id, room, attached tracks, local track,
assistant reference and ledger are all retained, refuting "on every exit
path … the state ends at Disconnected". -/
theorem endCall_thrown_skips_cleanup :
    (∀ r : HTTPResponse,
      (endCall endCallActiveSt { endFetch := .resp r }).1.callState = .DISCONNECTED ∧
      (endCall endCallActiveSt { endFetch := .resp r }).1.currentCallId = none ∧
      (endCall endCallActiveSt { endFetch := .resp r }).1.roomExists = false ∧
      (endCall endCallActiveSt { endFetch := .resp r }).1.assistantPresent = false ∧
      (endCall endCallActiveSt { endFetch := .resp r }).1.attachedTracks = [] ∧
      (endCall endCallActiveSt { endFetch := .resp r }).1.localAudioTrackMuted = none ∧
      (endCall endCallActiveSt { endFetch := .resp r }).1.seenMessageIds = [] ∧
      (endCall endCallActiveSt { endFetch := .resp r }).1.pollingActive = false ∧
      (endCall endCallActiveSt { endFetch := .resp r }).2.2 = .ok ()) ∧
    (endCall endCallActiveSt { endFetch := .thrown endCallNetErr }).2.2 =
      .error endCallNetErr ∧
    (endCall endCallActiveSt { endFetch := .thrown endCallNetErr }).1.callState =
      .DISCONNECTING ∧
    (endCall endCallActiveSt { endFetch := .thrown endCallNetErr }).1.currentCallId =
      some "call_9" ∧
    (endCall endCallActiveSt { endFetch := .thrown endCallNetErr }).1.roomExists = true ∧
    (endCall endCallActiveSt { endFetch := .thrown endCallNetErr }).1.assistantPresent =
      true ∧
    (endCall endCallActiveSt { endFetch := .thrown endCallNetErr }).1.attachedTracks =
      ["track_1"] ∧
    (endCall endCallActiveSt { endFetch := .thrown endCallNetErr }).1.localAudioTrackMuted =
      some false ∧
    (endCall endCallActiveSt { endFetch := .thrown endCallNetErr }).1.seenMessageIds =
      ["msg_1"] ∧
    (endCall endCallActiveSt { endFetch := .thrown endCallNetErr }).2.1 =
      [SDKEvent.stateChange .DISCONNECTING, SDKEvent.errorEvent endCallNetErr] := by
  refine ⟨fun r => ?_, ?_⟩
  · simp [endCall, endCallActiveSt, setState, jsTruthy]
  · decide
